import Mathlib

/-!
Verification of the real-time presence and notification-delivery subsystem
(NestJS WebSocket gateway + notifications service backed by Redis and a
relational store).

The embedding below is a shallow, executable model of the source:

* `NotificationsService` (presence-store operations, `createNotification`,
  unread queries, `markAsRead`) and `NotificationsGateway`
  (`handleConnection`, `handleDisconnect`, `handleMarkRead`,
  `forceDisconnectUser`, `forceDisconnectAllCompanyUsers`,
  `forceDisconnectSession`, `emitSessionExpired`) from
  `src/redis/redis.module.ts`.
* JavaScript `Map`s become functions `Nat → Option _`; JavaScript `Set`s
  become duplicate-free `List Nat` in insertion order; the Redis per-company
  presence sets (`online:company:<id>`) become `presence : Nat → List Nat`.
* Database tables (`users`, `sessions`, `notifications`,
  `user_notifications`) become lists of rows; the autoincrement id column of
  `notifications` is modelled with `nextNotificationId`.
* Socket-io emits are recorded in an event trace (`Ev`).  Server-initiated
  `socket.disconnect(true)` synchronously fires the `disconnect` event, so
  the forced-disconnect operations invoke `handleDisconnect` inline, exactly
  as the Node event loop does.
* Connection authentication (JWT verification, company resolution) is out of
  scope of the claims: `handleConnection` is modelled from the point where
  the credential has been accepted, with the extracted `userId`, `companyId`,
  optional `sessionId` and role already at hand.  The connect path rejects
  falsy ids (`!payload.sub`, `payload.companyId || null`,
  `payload.sessionId || null`), so every registered id is a positive
  integer and JavaScript truthiness tests on map lookups coincide with
  `Option.isSome`.
-/

namespace NestAuthWs

/-- A row of the `users` table (the columns the subsystem reads). -/
structure UserRow where
  id : Nat
  companyId : Nat
  isActive : Bool
  isDeleted : Bool
deriving DecidableEq, Repr

/-- The argument of `createNotification` / `emitNotification`. -/
structure CreateNotificationDto where
  companyId : Nat
  type : String
  title : String
  message : String
  data : Option String
  actorId : Option Nat
  actorEmail : Option String
deriving DecidableEq, Repr

/-- A row of the `notifications` table. -/
structure NotifRow where
  id : Nat
  companyId : Nat
  type : String
  title : String
  message : String
  data : Option String
  actorId : Option Nat
  actorEmail : Option String
deriving DecidableEq, Repr

/-- A row of the `user_notifications` table (one delivery record per
(notification, user) pair). -/
structure UNRow where
  userId : Nat
  notificationId : Nat
  isRead : Bool
  hasReadAt : Bool
deriving DecidableEq, Repr

/-- The data carried by an accepted connection handshake: socket id and the
fields extracted from the verified JWT payload. -/
structure Conn where
  sid : Nat
  userId : Nat
  companyId : Nat
  sessionId : Option Nat
  superAdmin : Bool
deriving DecidableEq, Repr

/-- One socket-io emit, as recorded in the trace. -/
inductive Ev where
  | statusChanged (userId : Nat) (companyId : Nat) (online : Bool)
  | sessionAdded (sessionId : Nat) (userId : Nat) (companyId : Nat)
  | sessionRemoved (sessionId : Nat) (userId : Nat) (companyId : Nat)
  | forceDisconnect (sid : Nat) (reason : String)
  | sessionExpired (sid : Nat) (sessionId : Nat) (reason : String) (message : String)
  | notificationEv (notificationId : Nat) (companyId : Nat)
  | unreadBatch (sid : Nat) (count : Nat)
  | unreadCountEv (sid : Nat) (count : Nat)
deriving DecidableEq, Repr

/-- The whole observable state: the gateway's in-process maps, the socket-io
server (live sockets and room membership), the Redis presence store, and the
relational store. -/
structure St where
  socketCompanyMap : Nat → Option Nat
  socketUserMap : Nat → Option Nat
  userSocketsMap : Nat → Option (List Nat)
  socketSessionMap : Nat → Option Nat
  sessionSocketsMap : Nat → Option (List Nat)
  liveSockets : List Nat
  roomCompany : Nat → Option Nat
  roomSuper : Nat → Bool
  presence : Nat → List Nat
  users : List UserRow
  sessionsDb : List Nat
  notifications : List NotifRow
  userNotifications : List UNRow
  nextNotificationId : Nat

/-- JavaScript `Set.add`: append if not already a member (insertion order). -/
def sadd (s : List Nat) (x : Nat) : List Nat := if x ∈ s then s else s ++ [x]

/-- `usersRepo.findOne({ where: { id } })` succeeds. -/
def userExists (st : St) (userId : Nat) : Bool :=
  st.users.any (fun u => u.id == userId)

/-- The `WHERE` clause of the unread queries: `{ userId, isRead: false }`. -/
def unreadOf (userId : Nat) (r : UNRow) : Bool :=
  r.userId == userId && !r.isRead

/-- `getUnreadNotifications`: the caller's unread delivery records. -/
def unreadFor (st : St) (userId : Nat) : List UNRow :=
  st.userNotifications.filter (unreadOf userId)

/-- `getUnreadCount`. -/
def getUnreadCount (st : St) (userId : Nat) : Nat := (unreadFor st userId).length

/-- `NotificationsService.markUserOnline`: `SADD online:company:<id> userId`. -/
def markUserOnline (st : St) (userId companyId : Nat) : St :=
  { st with presence :=
      Function.update st.presence companyId (sadd (st.presence companyId) userId) }

/-- `NotificationsService.markUserOffline`: `SREM online:company:<id> userId`. -/
def markUserOffline (st : St) (userId companyId : Nat) : St :=
  let remaining := (st.presence companyId).filter (fun x => x != userId)
  { st with presence := Function.update st.presence companyId remaining }

/-- `NotificationsService.getOnlineUsersForCompany`: `SMEMBERS`. -/
def getOnlineUsersForCompany (st : St) (companyId : Nat) : List Nat :=
  st.presence companyId

/-- The ids of the company's active users
(`usersRepo.find({ company, isActive: true, isDeleted: false })`). -/
def activeUserIds (st : St) (companyId : Nat) : List Nat :=
  (st.users.filter (fun u => u.companyId == companyId && u.isActive && !u.isDeleted)).map
    (fun u => u.id)

/-- `NotificationsService.createNotification`: save one notification row,
bulk-insert one delivery record per active company user (early-returning an
empty online list when there are none), then read the presence set. -/
def createNotification (st : St) (dto : CreateNotificationDto) :
    St × NotifRow × List Nat :=
  let savedNotification : NotifRow :=
    { id := st.nextNotificationId, companyId := dto.companyId, type := dto.type,
      title := dto.title, message := dto.message, data := dto.data,
      actorId := dto.actorId, actorEmail := dto.actorEmail }
  let st := { st with
    notifications := st.notifications ++ [savedNotification],
    nextNotificationId := st.nextNotificationId + 1 }
  let userIds := activeUserIds st dto.companyId
  if userIds.isEmpty then
    (st, savedNotification, [])
  else
    let newRecords := userIds.map (fun userId =>
      ({ userId := userId, notificationId := savedNotification.id,
         isRead := false, hasReadAt := false } : UNRow))
    let st := { st with userNotifications := st.userNotifications ++ newRecords }
    let onlineUserIds := getOnlineUsersForCompany st dto.companyId
    (st, savedNotification, onlineUserIds)

/-- The `WHERE` clause of `markAsRead`: `{ userId, notificationId, isRead:
false }`. -/
def readTarget (userId notificationId : Nat) (r : UNRow) : Bool :=
  r.userId == userId && r.notificationId == notificationId && !r.isRead

/-- The `SET` clause of `markAsRead` applied to one row when the `WHERE`
clause selects it. -/
def applyRead (userId notificationId : Nat) (r : UNRow) : UNRow :=
  if readTarget userId notificationId r then { r with isRead := true, hasReadAt := true }
  else r

/-- `NotificationsService.markAsRead`: `UPDATE ... WHERE userId,
notificationId, isRead = false`; returns whether any row was affected. -/
def markAsRead (st : St) (userId notificationId : Nat) : St × Bool :=
  let affected := (st.userNotifications.filter (readTarget userId notificationId)).length
  let st := { st with
    userNotifications := st.userNotifications.map (applyRead userId notificationId) }
  (st, decide (affected > 0))

/-- `NotificationsGateway.handleConnection`, from the point where the
credential was accepted and `userId`, `companyId`, `sessionId` resolved.

The handler never writes the relational tables, so its database reads (the
user row behind the status broadcast, the session row behind
`session-added`, the unread delivery records) are taken from the entry
state; the `isFirstSocketForSession` size check reads the session set just
written, i.e. `sadd (old set) c.sid`. -/
def handleConnection (st : St) (c : Conn) : St × List Ev :=
  let userSockets := (st.userSocketsMap c.userId).getD []
  let isFirstConnection := userSockets.isEmpty
  -- track sessionId for this socket and multiple sockets per session
  let stA :=
    match c.sessionId with
    | some sessionId =>
      { st with
        socketSessionMap := Function.update st.socketSessionMap c.sid (some sessionId),
        sessionSocketsMap := Function.update st.sessionSocketsMap sessionId
          (some (sadd ((st.sessionSocketsMap sessionId).getD []) c.sid)) }
    | none => st
  -- transport accept (the socket becomes live on the server), store the
  -- company/user mappings, track multiple sockets per user, join the
  -- company room (and super_admins when the role is present)
  let stB := { stA with
    liveSockets := st.liveSockets ++ [c.sid],
    socketCompanyMap := Function.update st.socketCompanyMap c.sid (some c.companyId),
    socketUserMap := Function.update st.socketUserMap c.sid (some c.userId),
    userSocketsMap := Function.update st.userSocketsMap c.userId (some (sadd userSockets c.sid)),
    roomCompany := Function.update st.roomCompany c.sid (some c.companyId),
    roomSuper := if c.superAdmin then Function.update st.roomSuper c.sid true else st.roomSuper }
  -- only on the FIRST connection: mark online in Redis, and broadcast
  -- user-status-changed when the user row is found
  let stC := if isFirstConnection then markUserOnline stB c.userId c.companyId else stB
  let evs1 :=
    if isFirstConnection && userExists st c.userId then
      [Ev.statusChanged c.userId c.companyId true]
    else []
  -- session-added when this socket is the first of its session and the
  -- session row and user row are found
  let evs2 :=
    match c.sessionId with
    | some sessionId =>
      if (sadd ((st.sessionSocketsMap sessionId).getD []) c.sid).length == 1 then
        if st.sessionsDb.contains sessionId && userExists st c.userId then
          [Ev.sessionAdded sessionId c.userId c.companyId]
        else []
      else []
    | none => []
  -- push unread notifications and the unread count to the new socket
  let unreadCount := getUnreadCount st c.userId
  let evs3 :=
    (if unreadCount > 0 then [Ev.unreadBatch c.sid unreadCount] else []) ++
      [Ev.unreadCountEv c.sid unreadCount]
  (stC, evs1 ++ evs2 ++ evs3)

/-- `NotificationsGateway.handleDisconnect`.  The transport close removes the
socket from the server and its rooms before the handler reads the maps; the
handler never writes the relational tables, so the `userExists` read behind
the offline broadcast is taken from the entry state, and the session branch
never touches the user map (nor conversely), so both branches read the maps
of the entry state. -/
def handleDisconnect (st : St) (sid : Nat) : St × List Ev :=
  let companyId? := st.socketCompanyMap sid
  let userId? := st.socketUserMap sid
  let sessionId? := st.socketSessionMap sid
  -- transport close + clean up socket-level mappings
  let stA := { st with
    liveSockets := st.liveSockets.erase sid,
    roomCompany := Function.update st.roomCompany sid none,
    roomSuper := Function.update st.roomSuper sid false,
    socketCompanyMap := Function.update st.socketCompanyMap sid none,
    socketUserMap := Function.update st.socketUserMap sid none,
    socketSessionMap := Function.update st.socketSessionMap sid none }
  -- clean up session socket tracking; the entry is dropped when the session
  -- has no more connections
  let stB :=
    match sessionId? with
    | some sessionId =>
      match st.sessionSocketsMap sessionId with
      | some sessionSockets =>
        if (sessionSockets.erase sid).isEmpty then
          { stA with sessionSocketsMap := Function.update st.sessionSocketsMap sessionId none }
        else
          { stA with sessionSocketsMap :=
              Function.update st.sessionSocketsMap sessionId (some (sessionSockets.erase sid)) }
      | none => stA
    | none => stA
  -- session-removed when the session has no more connections
  let evs1 :=
    match sessionId? with
    | some sessionId =>
      match st.sessionSocketsMap sessionId with
      | some sessionSockets =>
        if (sessionSockets.erase sid).isEmpty then
          match userId?, companyId? with
          | some userId, some companyId => [Ev.sessionRemoved sessionId userId companyId]
          | _, _ => []
        else []
      | none => []
    | none => []
  -- remove this socket from the user's socket set; only when ALL the user's
  -- sockets are closed: drop the entry and mark offline in Redis
  let stC :=
    match userId?, companyId? with
    | some userId, some companyId =>
      match st.userSocketsMap userId with
      | some userSockets =>
        if (userSockets.erase sid).isEmpty then
          markUserOffline
            { stB with userSocketsMap := Function.update st.userSocketsMap userId none }
            userId companyId
        else
          { stB with userSocketsMap :=
              Function.update st.userSocketsMap userId (some (userSockets.erase sid)) }
      | none => stB
    | _, _ => stB
  -- the offline broadcast, when the user row is found
  let evs2 :=
    match userId?, companyId? with
    | some userId, some companyId =>
      match st.userSocketsMap userId with
      | some userSockets =>
        if (userSockets.erase sid).isEmpty then
          (if userExists st userId then [Ev.statusChanged userId companyId false] else [])
        else []
      | none => []
    | _, _ => []
  (stC, evs1 ++ evs2)

/-- `NotificationsGateway.handleMarkRead`: resolve the caller from the socket
map, mark read, recompute and push the unread count. -/
def handleMarkRead (st : St) (sid : Nat) (notificationId : Nat) :
    St × List Ev × Option (Bool × Nat) :=
  match st.socketUserMap sid with
  | none => (st, [], none)
  | some userId =>
    let r := markAsRead st userId notificationId
    let newUnreadCount := getUnreadCount r.1 userId
    (r.1, [Ev.unreadCountEv sid newUnreadCount], some (r.2, newUnreadCount))

def revokeReason : String := "Session revoked by admin"

def revokeAllReason : String := "All sessions revoked by admin"

/-- The loop body of `forceDisconnectUser`: for each socket id found on the
server, emit `force-disconnect` and hard-close it; the close synchronously
fires the `disconnect` event, i.e. `handleDisconnect`. -/
def forceSockets : St → List Nat → St × List Ev × Nat
  | st, [] => (st, [], 0)
  | st, sid :: rest =>
    if st.liveSockets.contains sid then
      let rd := handleDisconnect st sid
      let r := forceSockets rd.1 rest
      (r.1, Ev.forceDisconnect sid revokeReason :: rd.2 ++ r.2.1, r.2.2 + 1)
    else
      forceSockets st rest

/-- `NotificationsGateway.forceDisconnectUser`. -/
def forceDisconnectUser (st : St) (userId : Nat) : St × List Ev × Nat :=
  match st.userSocketsMap userId with
  | none => (st, [], 0)
  | some sockets =>
    match sockets with
    | [] => (st, [], 0)
    | firstSocket :: _ =>
      let companyId? :=
        if (st.socketUserMap firstSocket).isSome then st.socketCompanyMap firstSocket
        else none
      let r := forceSockets st sockets
      let st := { r.1 with userSocketsMap := Function.update r.1.userSocketsMap userId none }
      match companyId? with
      | some companyId =>
        let st := markUserOffline st userId companyId
        if userExists st userId then
          (st, r.2.1 ++ [Ev.statusChanged userId companyId false], r.2.2)
        else (st, r.2.1, r.2.2)
      | none => (st, r.2.1, r.2.2)

/-- The once-per-distinct-user block of `forceDisconnectAllCompanyUsers`:
drop the user's socket-set entry, mark the user offline in Redis, and
broadcast `user-status-changed{online:false}` when the user row is found. -/
def offlineBookkeeping (st : St) (userId companyId : Nat) : St × List Ev :=
  let st1 := { st with userSocketsMap := Function.update st.userSocketsMap userId none }
  let st1 := markUserOffline st1 userId companyId
  if userExists st1 userId then (st1, [Ev.statusChanged userId companyId false])
  else (st1, ([] : List Ev))

/-- The loop body of `forceDisconnectAllCompanyUsers` over the sockets
fetched from the company room.  Result: state, trace, disconnectedUsers,
disconnectedSockets. -/
def forceAllLoop (companyId : Nat) (excludeUserId : Option Nat) :
    St → List Nat → List Nat → St × List Ev × Nat × Nat
  | st, _, [] => (st, [], 0, 0)
  | st, processedUsers, sid :: rest =>
    match st.socketUserMap sid with
    | none => forceAllLoop companyId excludeUserId st processedUsers rest
    | some userId =>
      if some userId == excludeUserId then
        forceAllLoop companyId excludeUserId st processedUsers rest
      else
        let rd := handleDisconnect st sid
        let evHead := Ev.forceDisconnect sid revokeAllReason :: rd.2
        if processedUsers.contains userId then
          let r := forceAllLoop companyId excludeUserId rd.1 processedUsers rest
          (r.1, evHead ++ r.2.1, r.2.2.1, r.2.2.2 + 1)
        else
          let rOff := offlineBookkeeping rd.1 userId companyId
          let r := forceAllLoop companyId excludeUserId rOff.1 (processedUsers ++ [userId]) rest
          (r.1, evHead ++ rOff.2 ++ r.2.1, r.2.2.1 + 1, r.2.2.2 + 1)

/-- `NotificationsGateway.forceDisconnectAllCompanyUsers`: iterate the
sockets currently in the company room, skipping the excluded user and
sockets unknown to the local registry. -/
def forceDisconnectAllCompanyUsers (st : St) (companyId : Nat)
    (excludeUserId : Option Nat) : St × List Ev × Nat × Nat :=
  let socketsInRoom := st.liveSockets.filter (fun sid => st.roomCompany sid == some companyId)
  forceAllLoop companyId excludeUserId st [] socketsInRoom

/-- The loop body of `forceDisconnectSession`: close each socket of the
session that is still on the server, then clean its mappings and remove it
from the user's socket set (the set entry itself is kept). -/
def forceSessionSockets (userId : Nat) : St → List Nat → St × List Ev × Nat
  | st, [] => (st, [], 0)
  | st, sid :: rest =>
    let r1 :=
      if st.liveSockets.contains sid then
        let rd := handleDisconnect st sid
        (rd.1, Ev.forceDisconnect sid revokeReason :: rd.2, 1)
      else (st, ([] : List Ev), 0)
    let st := r1.1
    let st := { st with
      socketCompanyMap := Function.update st.socketCompanyMap sid none,
      socketUserMap := Function.update st.socketUserMap sid none,
      socketSessionMap := Function.update st.socketSessionMap sid none }
    let st :=
      match st.userSocketsMap userId with
      | some userSockets =>
        { st with userSocketsMap :=
            Function.update st.userSocketsMap userId (some (userSockets.erase sid)) }
      | none => st
    let r := forceSessionSockets userId st rest
    (r.1, r1.2.1 ++ r.2.1, r1.2.2 + r.2.2)

/-- `NotificationsGateway.forceDisconnectSession`. -/
def forceDisconnectSession (st : St) (sessionId userId companyId : Nat) :
    St × List Ev × Nat :=
  match st.sessionSocketsMap sessionId with
  | none => (st, [], 0)
  | some sessionSockets =>
    if sessionSockets.isEmpty then (st, [], 0)
    else
      let r := forceSessionSockets userId st sessionSockets
      let st := { r.1 with
        sessionSocketsMap := Function.update r.1.sessionSocketsMap sessionId none }
      let evs := r.2.1 ++ [Ev.sessionRemoved sessionId userId companyId]
      let noneLeft :=
        match st.userSocketsMap userId with
        | some remainingUserSockets => remainingUserSockets.isEmpty
        | none => true
      if noneLeft then
        let st := { st with userSocketsMap := Function.update st.userSocketsMap userId none }
        let st := markUserOffline st userId companyId
        if userExists st userId then
          (st, evs ++ [Ev.statusChanged userId companyId false], r.2.2)
        else (st, evs, r.2.2)
      else (st, evs, r.2.2)

/-- One session's contribution to `emitSessionExpired`: an advisory event to
each of its sockets still held by the server. -/
def expireSession (st : St) (reason message : String) (sessionId : Nat) : List Ev :=
  match st.sessionSocketsMap sessionId with
  | none => []
  | some sessionSockets =>
    (sessionSockets.filter (fun sid => st.liveSockets.contains sid)).map
      (fun sid => Ev.sessionExpired sid sessionId reason message)

/-- `NotificationsGateway.emitSessionExpired`: pure advisory fan-out; no
state is mutated and the return value counts the sockets notified. -/
def emitSessionExpired (st : St) (sessionIds : List Nat) (reason message : String) :
    St × List Ev × Nat :=
  let evs := (sessionIds.map (expireSession st reason message)).flatten
  (st, evs, evs.length)

/-- `NotificationsGateway.emitNotification`: create and persist, then
broadcast one `notification` event to the company room. -/
def emitNotification (st : St) (dto : CreateNotificationDto) : St × List Ev :=
  let r := createNotification st dto
  (r.1, [Ev.notificationEv r.2.1.id dto.companyId])

/-! ### Driver: organic connect/disconnect sequences -/

/-- An organic gateway lifecycle event. -/
inductive GEvent where
  | connect (c : Conn)
  | disconnect (sid : Nat)
deriving DecidableEq, Repr

def step (st : St) (e : GEvent) : St × List Ev :=
  match e with
  | .connect c => handleConnection st c
  | .disconnect sid => handleDisconnect st sid

def run : St → List GEvent → St × List Ev
  | st, [] => (st, [])
  | st, e :: rest =>
    let r1 := step st e
    let r2 := run r1.1 rest
    (r2.1, r1.2 ++ r2.2)

/-- The user's live-connection count, as derived from the registry. -/
def connCount (st : St) (userId : Nat) : Nat :=
  ((st.userSocketsMap userId).getD []).length

/-- Number of steps of the sequence at which the user's connection count
crosses from zero to nonzero. -/
def upCrossings (userId : Nat) : St → List GEvent → Nat
  | _, [] => 0
  | st, e :: rest =>
    let st1 := (step st e).1
    (if connCount st userId = 0 ∧ connCount st1 userId ≠ 0 then 1 else 0) +
      upCrossings userId st1 rest

/-- Number of steps of the sequence at which the user's connection count
crosses from nonzero to zero. -/
def downCrossings (userId : Nat) : St → List GEvent → Nat
  | _, [] => 0
  | st, e :: rest =>
    let st1 := (step st e).1
    (if connCount st userId ≠ 0 ∧ connCount st1 userId = 0 then 1 else 0) +
      downCrossings userId st1 rest

/-! ### Trace observations -/

def countEv (p : Ev → Bool) (evs : List Ev) : Nat := (evs.filter p).length

def isOnlineEv (userId : Nat) : Ev → Bool
  | .statusChanged u _ online => u == userId && online
  | _ => false

def isOfflineEv (userId : Nat) : Ev → Bool
  | .statusChanged u _ online => u == userId && !online
  | _ => false

def isSessionEv : Ev → Bool
  | .sessionAdded _ _ _ => true
  | .sessionRemoved _ _ _ => true
  | _ => false

def isSessionRemovedEv (sessionId : Nat) : Ev → Bool
  | .sessionRemoved s _ _ => s == sessionId
  | _ => false

def isForceEv (sid : Nat) : Ev → Bool
  | .forceDisconnect s _ => s == sid
  | _ => false

def isExpiredEvFor (sid sessionId : Nat) : Ev → Bool
  | .sessionExpired s sess _ _ => s == sid && sess == sessionId
  | _ => false

def isExpiredEv : Ev → Bool
  | .sessionExpired _ _ _ _ => true
  | _ => false

/-- Registry sanity: the per-user socket-set map never stores an empty set
(empty entries are deleted, not kept).  This holds in every reachable state
and is preserved by the organic handlers. -/
def noEmptyUserEntries (st : St) : Prop :=
  ∀ u : Nat, st.userSocketsMap u ≠ some []

/-! ### Generic helper lemmas -/

theorem countEv_append (p : Ev → Bool) (a b : List Ev) :
    countEv p (a ++ b) = countEv p a + countEv p b := by
  simp [countEv, List.filter_append]

theorem countEv_cons (p : Ev → Bool) (e : Ev) (b : List Ev) :
    countEv p (e :: b) = (if p e then 1 else 0) + countEv p b := by
  by_cases h : p e <;> simp [countEv, h, Nat.add_comm]

theorem countEv_nil (p : Ev → Bool) : countEv p [] = 0 := rfl

theorem sadd_ne_nil (s : List Nat) (x : Nat) : sadd s x ≠ [] := by
  unfold sadd
  split
  · rename_i h
    intro hnil
    subst hnil
    exact absurd h (List.not_mem_nil x)
  · simp

theorem sadd_length_pos (s : List Nat) (x : Nat) : 0 < (sadd s x).length := by
  cases h : sadd s x with
  | nil => exact absurd h (sadd_ne_nil s x)
  | cons a t => simp

/-! ### Claim C7: revocation with zero locally-known connections is a no-op -/

/-- C7: calling `forceDisconnectUser` for a user with zero locally-known
connections, or `forceDisconnectSession` for a session with zero
locally-known connections, returns an affected count of 0, raises no error,
and leaves the registry, the presence store and all persisted state (the
whole `St`) unchanged. -/
theorem forceDisconnect_zero_connections_noop (st : St)
    (userId sessionId companyId : Nat)
    (hu : st.userSocketsMap userId = none ∨ st.userSocketsMap userId = some [])
    (hs : st.sessionSocketsMap sessionId = none ∨ st.sessionSocketsMap sessionId = some []) :
    forceDisconnectUser st userId = (st, [], 0) ∧
    forceDisconnectSession st sessionId userId companyId = (st, [], 0) := by
  constructor
  · rcases hu with h | h <;> simp [forceDisconnectUser, h]
  · rcases hs with h | h <;> simp [forceDisconnectSession, h]

def noopSt : St where
  socketCompanyMap := fun _ => none
  socketUserMap := fun _ => none
  userSocketsMap := fun _ => none
  socketSessionMap := fun _ => none
  sessionSocketsMap := fun _ => none
  liveSockets := []
  roomCompany := fun _ => none
  roomSuper := fun _ => false
  presence := fun _ => []
  users := [⟨42, 7, true, false⟩]
  sessionsDb := [900]
  notifications := []
  userNotifications := []
  nextNotificationId := 1

theorem forceDisconnect_zero_connections_noop_witness :
    forceDisconnectUser noopSt 42 = (noopSt, [], 0) ∧
    forceDisconnectSession noopSt 900 42 7 = (noopSt, [], 0) :=
  forceDisconnect_zero_connections_noop noopSt 42 900 7 (Or.inl rfl) (Or.inl rfl)

/-! ### Claim C9: the returned online-user list vs the presence store -/

/-- The list of user ids `createNotification` reports as online: the
presence-store membership when the tenant has at least one active user, but
the hard-coded empty list when it has none (the early return skips the
presence read). -/
theorem createNotification_online_list (st : St) (dto : CreateNotificationDto) :
    (createNotification st dto).2.2 =
      if (activeUserIds st dto.companyId).isEmpty then ([] : List Nat)
      else getOnlineUsersForCompany st dto.companyId := by
  unfold createNotification
  simp only [activeUserIds, getOnlineUsersForCompany]
  split <;> rfl

/-- A company-3 tenant state whose only user row is deactivated while the
presence store still lists user 5 as online for company 3 (a user deactivated
after connecting: the gateway checks activity only at token issuance). -/
def c9St : St where
  socketCompanyMap := fun _ => none
  socketUserMap := fun _ => none
  userSocketsMap := fun _ => none
  socketSessionMap := fun _ => none
  sessionSocketsMap := fun _ => none
  liveSockets := []
  roomCompany := fun _ => none
  roomSuper := fun _ => false
  presence := fun c => if c = 3 then [5] else []
  users := [⟨5, 3, false, false⟩]
  sessionsDb := []
  notifications := []
  userNotifications := []
  nextNotificationId := 1

def c9Dto : CreateNotificationDto :=
  ⟨3, "system:maintenance", "Title", "Msg", none, none, none⟩

/-- C9 counterexample: with zero active users but a non-empty presence set,
`createNotification` returns an online-user list different from the presence
membership read at publish time (which the call leaves untouched). -/
theorem createNotification_online_list_counterexample :
    (createNotification c9St c9Dto).2.2 = [] ∧
    (createNotification c9St c9Dto).1.presence 3 = [5] ∧
    (createNotification c9St c9Dto).2.2 ≠ (createNotification c9St c9Dto).1.presence 3 := by
  refine ⟨rfl, rfl, ?_⟩
  intro h
  exact List.cons_ne_nil 5 [] (h.symm.trans rfl)

/-! ### Claim C4: mark-read is an idempotent success-no-op -/

theorem readTarget_applyRead (u n : Nat) (r : UNRow) :
    readTarget u n (applyRead u n r) = false := by
  unfold applyRead
  by_cases h : readTarget u n r = true
  · rw [if_pos h]
    unfold readTarget
    simp
  · rw [if_neg h]
    simpa using h

theorem applyRead_applyRead (u n : Nat) (r : UNRow) :
    applyRead u n (applyRead u n r) = applyRead u n r := by
  have h := readTarget_applyRead u n r
  unfold applyRead at *
  simp [h]

theorem filter_readTarget_map (u n : Nat) (l : List UNRow) :
    (l.map (applyRead u n)).filter (readTarget u n) = [] := by
  induction l with
  | nil => rfl
  | cons r t ih => simp [List.filter, readTarget_applyRead, ih]

theorem map_applyRead_idem (u n : Nat) (l : List UNRow) :
    (l.map (applyRead u n)).map (applyRead u n) = l.map (applyRead u n) := by
  induction l with
  | nil => rfl
  | cons r t ih => simp [applyRead_applyRead, ih]

theorem unread_after_applyRead (u n : Nat) (l : List UNRow) :
    ((l.map (applyRead u n)).filter (unreadOf u)).length
        + (l.filter (readTarget u n)).length
      = (l.filter (unreadOf u)).length := by
  induction l with
  | nil => rfl
  | cons r t ih =>
    by_cases h : readTarget u n r = true
    · have h2 : (r.userId = u ∧ r.notificationId = n) ∧ r.isRead = false := by
        simpa [readTarget] using h
      have hu : unreadOf u r = true := by
        simp [unreadOf]
        exact ⟨h2.1.1, h2.2⟩
      have hu2 : unreadOf u (applyRead u n r) = false := by
        unfold applyRead
        rw [if_pos h]
        simp [unreadOf]
      simp only [List.map_cons, List.filter_cons, h, hu, hu2]
      simp only [if_pos, if_neg, Bool.false_eq_true, ite_true, ite_false]
      simp
      omega
    · have hr : applyRead u n r = r := by unfold applyRead; rw [if_neg h]
      by_cases hu : unreadOf u r = true <;>
        simp [List.filter_cons, hr, h, hu] <;> omega

theorem map_no_target_eq_self (u n : Nat) (l : List UNRow)
    (h : l.filter (readTarget u n) = []) :
    l.map (applyRead u n) = l := by
  induction l with
  | nil => rfl
  | cons r t ih =>
    rw [List.filter_cons] at h
    by_cases hr : readTarget u n r = true
    · simp [hr] at h
    · simp only [hr] at h
      simp only [List.map_cons]
      rw [ih (by simpa [hr] using h)]
      unfold applyRead
      simp [hr]

/-- C4: `mark-read` is idempotent.  The second invocation on the same
(user, notification) pair changes no delivery record and reports zero rows
affected; the unread count after a mark-read plus the number of rows flipped
equals the unread count before (so it can never go negative); and a
mark-read whose `WHERE` clause matches nothing — unknown notification id or
an already-read record — leaves the whole state unchanged and returns the
success-no-op result rather than an error. -/
theorem markAsRead_idempotent (st : St) (userId notificationId : Nat) :
    (markAsRead (markAsRead st userId notificationId).1 userId notificationId).1
        = (markAsRead st userId notificationId).1 ∧
    (markAsRead (markAsRead st userId notificationId).1 userId notificationId).2 = false ∧
    getUnreadCount (markAsRead st userId notificationId).1 userId
        + (st.userNotifications.filter (readTarget userId notificationId)).length
      = getUnreadCount st userId ∧
    (st.userNotifications.filter (readTarget userId notificationId) = [] →
      markAsRead st userId notificationId = (st, false)) := by
  refine ⟨?_, ?_, ?_, ?_⟩
  · show ({ markAsRead st userId notificationId |>.1 with userNotifications :=
        ((st.userNotifications.map (applyRead userId notificationId)).map
          (applyRead userId notificationId)) } : St) = _
    rw [map_applyRead_idem]
    rfl
  · show decide (((st.userNotifications.map (applyRead userId notificationId)).filter
        (readTarget userId notificationId)).length > 0) = false
    rw [filter_readTarget_map]
    rfl
  · show ((st.userNotifications.map (applyRead userId notificationId)).filter
        (unreadOf userId)).length + _ = _
    exact unread_after_applyRead userId notificationId st.userNotifications
  · intro h
    unfold markAsRead
    rw [map_no_target_eq_self _ _ _ h, h]
    rfl

def c4St : St :=
  { noopSt with
    userNotifications := [⟨42, 1, false, false⟩, ⟨42, 2, true, true⟩],
    notifications :=
      [⟨1, 7, "a", "t", "m", none, none, none⟩, ⟨2, 7, "b", "t", "m", none, none, none⟩],
    nextNotificationId := 3 }

theorem markAsRead_idempotent_witness :
    (markAsRead (markAsRead c4St 42 1).1 42 1).1 = (markAsRead c4St 42 1).1 ∧
    (markAsRead (markAsRead c4St 42 1).1 42 1).2 = false ∧
    getUnreadCount (markAsRead c4St 42 1).1 42
        + (c4St.userNotifications.filter (readTarget 42 1)).length
      = getUnreadCount c4St 42 ∧
    (c4St.userNotifications.filter (readTarget 42 1) = [] →
      markAsRead c4St 42 1 = (c4St, false)) :=
  markAsRead_idempotent c4St 42 1

/-! ### Claim C2: fan-out creates one notification and K delivery records -/

theorem createNotification_row (st : St) (dto : CreateNotificationDto) :
    (createNotification st dto).2.1 =
      { id := st.nextNotificationId, companyId := dto.companyId, type := dto.type,
        title := dto.title, message := dto.message, data := dto.data,
        actorId := dto.actorId, actorEmail := dto.actorEmail } := by
  unfold createNotification
  dsimp only
  split <;> rfl

theorem createNotification_notifs (st : St) (dto : CreateNotificationDto) :
    (createNotification st dto).1.notifications
      = st.notifications ++ [(createNotification st dto).2.1] := by
  unfold createNotification
  dsimp only
  split <;> rfl

theorem createNotification_nextId (st : St) (dto : CreateNotificationDto) :
    (createNotification st dto).1.nextNotificationId = st.nextNotificationId + 1 := by
  unfold createNotification
  dsimp only
  split <;> rfl

theorem createNotification_users (st : St) (dto : CreateNotificationDto) :
    (createNotification st dto).1.users = st.users := by
  unfold createNotification
  dsimp only
  split <;> rfl

theorem createNotification_records (st : St) (dto : CreateNotificationDto) :
    (createNotification st dto).1.userNotifications
      = st.userNotifications ++ (activeUserIds st dto.companyId).map (fun uid =>
          ({ userId := uid, notificationId := st.nextNotificationId,
             isRead := false, hasReadAt := false } : UNRow)) := by
  unfold createNotification
  dsimp only
  split
  · rename_i h
    have h2 : activeUserIds st dto.companyId = [] := List.isEmpty_iff.mp h
    rw [h2]
    simp
  · rfl

theorem activeUserIds_nodup (st : St) (companyId : Nat)
    (hids : (st.users.map UserRow.id).Nodup) :
    (activeUserIds st companyId).Nodup := by
  unfold activeUserIds
  refine List.Nodup.sublist ?_ hids
  exact (List.filter_sublist _).map _

/-- C2: `createNotification` (the engine behind `emitNotification`) appends
exactly one notification row and exactly one delivery record per user of the
tenant that is active and not deleted at call time — pairwise-distinct
recipients, and no pre-existing record shares the fresh notification id, so
no (notification, user) pair is ever duplicated; and a second call with the
identical dto creates a second, independent notification row (a different
id, both rows present) rather than deduplicating. -/
theorem createNotification_exact_fanout (st : St) (dto : CreateNotificationDto)
    (hids : (st.users.map UserRow.id).Nodup)
    (hfresh : ∀ r ∈ st.userNotifications, r.notificationId ≠ st.nextNotificationId) :
    (createNotification st dto).1.notifications
        = st.notifications ++ [(createNotification st dto).2.1] ∧
    (createNotification st dto).1.userNotifications
        = st.userNotifications ++ (activeUserIds st dto.companyId).map (fun uid =>
            ({ userId := uid, notificationId := (createNotification st dto).2.1.id,
               isRead := false, hasReadAt := false } : UNRow)) ∧
    (activeUserIds st dto.companyId).Nodup ∧
    (∀ r ∈ st.userNotifications, r.notificationId ≠ (createNotification st dto).2.1.id) ∧
    (createNotification (createNotification st dto).1 dto).2.1.id
        ≠ (createNotification st dto).2.1.id ∧
    (createNotification (createNotification st dto).1 dto).1.notifications
        = st.notifications ++ [(createNotification st dto).2.1,
            (createNotification (createNotification st dto).1 dto).2.1] := by
  have hrow := createNotification_row st dto
  have hid : (createNotification st dto).2.1.id = st.nextNotificationId := by rw [hrow]
  refine ⟨createNotification_notifs st dto, ?_, activeUserIds_nodup st dto.companyId hids,
      ?_, ?_, ?_⟩
  · rw [hid]
    exact createNotification_records st dto
  · intro r hr
    rw [hid]
    exact hfresh r hr
  · rw [createNotification_row (createNotification st dto).1 dto, hrow]
    simp [createNotification_nextId]
  · rw [createNotification_notifs (createNotification st dto).1 dto,
      createNotification_notifs st dto]
    simp

def c2St : St :=
  { noopSt with
    users := [⟨1, 7, true, false⟩, ⟨2, 7, true, false⟩, ⟨3, 7, false, false⟩, ⟨4, 9, true, false⟩] }

def c2Dto : CreateNotificationDto := ⟨7, "user:created", "New user", "A user was created",
  none, some 1, none⟩

theorem createNotification_exact_fanout_witness :
    (createNotification c2St c2Dto).1.notifications
        = c2St.notifications ++ [(createNotification c2St c2Dto).2.1] ∧
    (createNotification c2St c2Dto).1.userNotifications
        = c2St.userNotifications ++ (activeUserIds c2St 7).map (fun uid =>
            ({ userId := uid, notificationId := (createNotification c2St c2Dto).2.1.id,
               isRead := false, hasReadAt := false } : UNRow)) ∧
    (activeUserIds c2St 7).Nodup ∧
    (∀ r ∈ c2St.userNotifications, r.notificationId ≠ (createNotification c2St c2Dto).2.1.id) ∧
    (createNotification (createNotification c2St c2Dto).1 c2Dto).2.1.id
        ≠ (createNotification c2St c2Dto).2.1.id ∧
    (createNotification (createNotification c2St c2Dto).1 c2Dto).1.notifications
        = c2St.notifications ++ [(createNotification c2St c2Dto).2.1,
            (createNotification (createNotification c2St c2Dto).1 c2Dto).2.1] :=
  createNotification_exact_fanout c2St c2Dto (by decide) (by simp [c2St, noopSt])

/-! ### Claim C8: emit-session-expired is a pure advisory fan-out -/

theorem filter_map_length (p : Ev → Bool) (g : Nat → Ev) (l : List Nat) :
    ((l.map g).filter p).length = (l.filter (fun x => p (g x))).length := by
  induction l with
  | nil => rfl
  | cons a t ih =>
    by_cases h : p (g a) = true <;>
      simp [List.map_cons, List.filter_cons, h, ih]

theorem countEv_expire_ne (st : St) (reason message : String)
    (sid s s' : Nat) (h : s' ≠ s) :
    countEv (isExpiredEvFor sid s) (expireSession st reason message s') = 0 := by
  unfold expireSession countEv
  cases st.sessionSocketsMap s' with
  | none => rfl
  | some socks =>
    dsimp only
    rw [filter_map_length]
    have hp : ∀ x : Nat,
        isExpiredEvFor sid s (Ev.sessionExpired x s' reason message) = false := by
      intro x
      simp [isExpiredEvFor, h]
    simp [hp]

theorem countEv_expire_self (st : St) (reason message : String) (sid s : Nat)
    (hnd : ((st.sessionSocketsMap s).getD []).Nodup)
    (hmem : sid ∈ (st.sessionSocketsMap s).getD [])
    (hlive : sid ∈ st.liveSockets) :
    countEv (isExpiredEvFor sid s) (expireSession st reason message s) = 1 := by
  unfold expireSession countEv
  cases hset : st.sessionSocketsMap s with
  | none =>
    rw [hset] at hmem
    simp at hmem
  | some socks =>
    rw [hset] at hmem hnd
    simp only [Option.getD_some] at hmem hnd
    dsimp only
    rw [filter_map_length]
    have hp : ∀ x : Nat,
        isExpiredEvFor sid s (Ev.sessionExpired x s reason message) = (x == sid) := by
      intro x
      simp [isExpiredEvFor]
    simp only [hp]
    have h1 : sid ∈ socks.filter (fun x => st.liveSockets.contains x) :=
      List.mem_filter.mpr ⟨hmem, by simp [hlive]⟩
    have h2 : (socks.filter (fun x => st.liveSockets.contains x)).Nodup :=
      List.Nodup.filter _ hnd
    rw [← List.countP_eq_length_filter, ← List.count_eq_countP]
    exact List.count_eq_one_of_mem h2 h1

theorem countEv_expire_notin (st : St) (reason message : String)
    (sid s : Nat) (ids : List Nat) (h : s ∉ ids) :
    countEv (isExpiredEvFor sid s)
      ((ids.map (expireSession st reason message)).flatten) = 0 := by
  induction ids with
  | nil => rfl
  | cons a t ih =>
    rw [List.map_cons, List.flatten_cons, countEv_append]
    have ha : a ≠ s := fun hh => h (hh ▸ List.mem_cons_self a t)
    rw [countEv_expire_ne st reason message sid s a ha,
      ih (fun hh => h (List.mem_cons_of_mem a hh))]

theorem countEv_expire_list (st : St) (reason message : String) (sid s : Nat)
    (ids : List Nat) (hnd : ids.Nodup)
    (hsetnd : ((st.sessionSocketsMap s).getD []).Nodup)
    (hmem : sid ∈ (st.sessionSocketsMap s).getD [])
    (hlive : sid ∈ st.liveSockets) (hin : s ∈ ids) :
    countEv (isExpiredEvFor sid s)
      ((ids.map (expireSession st reason message)).flatten) = 1 := by
  induction ids with
  | nil => cases hin
  | cons a t ih =>
    rw [List.map_cons, List.flatten_cons, countEv_append]
    rcases List.mem_cons.mp hin with heq | hin2
    · subst heq
      rw [countEv_expire_self st reason message sid s hsetnd hmem hlive,
        countEv_expire_notin st reason message sid s t (List.nodup_cons.mp hnd).1]
    · have ha : a ≠ s := by
        intro hh
        subst hh
        exact (List.nodup_cons.mp hnd).1 hin2
      rw [countEv_expire_ne st reason message sid s a ha,
        ih (List.nodup_cons.mp hnd).2 hin2]

/-- C8: `emitSessionExpired(sessionIds, reason, message)` pushes exactly one
`session-expired` event to each live locally-held socket of each listed
session, returns exactly the number of sockets so notified (the trace
length), emits nothing but `session-expired` advisories, and leaves the
whole state — live sockets, registry, presence store, persisted rows —
untouched. -/
theorem emitSessionExpired_advisory (st : St) (sessionIds : List Nat)
    (reason message : String) (hnd : sessionIds.Nodup)
    (hsets : ∀ s : Nat, ((st.sessionSocketsMap s).getD []).Nodup) :
    (emitSessionExpired st sessionIds reason message).1 = st ∧
    (emitSessionExpired st sessionIds reason message).2.2
        = (emitSessionExpired st sessionIds reason message).2.1.length ∧
    (∀ e ∈ (emitSessionExpired st sessionIds reason message).2.1, isExpiredEv e = true) ∧
    (∀ s ∈ sessionIds, ∀ sid ∈ (st.sessionSocketsMap s).getD [],
      sid ∈ st.liveSockets →
        countEv (isExpiredEvFor sid s)
          (emitSessionExpired st sessionIds reason message).2.1 = 1) := by
  refine ⟨rfl, rfl, ?_, ?_⟩
  · intro e he
    unfold emitSessionExpired at he
    dsimp only at he
    rcases List.mem_flatten.mp he with ⟨l, hl, hel⟩
    rcases List.mem_map.mp hl with ⟨s, _, rfl⟩
    unfold expireSession at hel
    cases hs : st.sessionSocketsMap s with
    | none =>
      rw [hs] at hel
      simp at hel
    | some socks =>
      rw [hs] at hel
      dsimp only at hel
      rcases List.mem_map.mp hel with ⟨sid, _, rfl⟩
      rfl
  · intro s hs sid hsid hlive
    exact countEv_expire_list st reason message sid s sessionIds hnd (hsets s) hsid hlive hs

/-- A state in which session 900 has two live sockets (21 and 22) of user 42
in company 7 and session 901 has one live socket (23). -/
def c8St : St :=
  { noopSt with
    socketCompanyMap := fun sid => if sid = 21 ∨ sid = 22 ∨ sid = 23 then some 7 else none,
    socketUserMap := fun sid => if sid = 21 ∨ sid = 22 ∨ sid = 23 then some 42 else none,
    userSocketsMap := fun u => if u = 42 then some [21, 22, 23] else none,
    socketSessionMap := fun sid =>
      if sid = 21 ∨ sid = 22 then some 900 else if sid = 23 then some 901 else none,
    sessionSocketsMap := fun s =>
      if s = 900 then some [21, 22] else if s = 901 then some [23] else none,
    liveSockets := [21, 22, 23],
    roomCompany := fun sid => if sid = 21 ∨ sid = 22 ∨ sid = 23 then some 7 else none,
    presence := fun c => if c = 7 then [42] else [] }

theorem emitSessionExpired_advisory_witness :
    (emitSessionExpired c8St [900] "expired" "Your session has expired").1 = c8St ∧
    (emitSessionExpired c8St [900] "expired" "Your session has expired").2.2
        = (emitSessionExpired c8St [900] "expired" "Your session has expired").2.1.length ∧
    (∀ e ∈ (emitSessionExpired c8St [900] "expired" "Your session has expired").2.1,
      isExpiredEv e = true) ∧
    (∀ s ∈ [900], ∀ sid ∈ (c8St.sessionSocketsMap s).getD [],
      sid ∈ c8St.liveSockets →
        countEv (isExpiredEvFor sid s)
          (emitSessionExpired c8St [900] "expired" "Your session has expired").2.1 = 1) :=
  emitSessionExpired_advisory c8St [900] "expired" "Your session has expired"
    (by decide)
    (by
      intro s
      dsimp [c8St, noopSt]
      by_cases h1 : s = 900
      · rw [if_pos h1]
        decide
      · rw [if_neg h1]
        by_cases h2 : s = 901
        · rw [if_pos h2]
          decide
        · rw [if_neg h2]
          decide)

/-! ### Gateway handler characterization lemmas -/

theorem hc_userSocketsMap (st : St) (c : Conn) :
    (handleConnection st c).1.userSocketsMap
      = Function.update st.userSocketsMap c.userId
          (some (sadd ((st.userSocketsMap c.userId).getD []) c.sid)) := by
  unfold handleConnection
  dsimp only
  cases c.sessionId <;> dsimp only <;> repeat' split
  all_goals rfl

theorem hc_users (st : St) (c : Conn) : (handleConnection st c).1.users = st.users := by
  unfold handleConnection
  dsimp only
  cases c.sessionId <;> dsimp only <;> repeat' split
  all_goals rfl

theorem hd_users (st : St) (sid : Nat) : (handleDisconnect st sid).1.users = st.users := by
  unfold handleDisconnect
  dsimp only
  repeat' split
  all_goals rfl

theorem hd_userSocketsMap (st : St) (sid : Nat) :
    (handleDisconnect st sid).1.userSocketsMap
      = match st.socketUserMap sid, st.socketCompanyMap sid with
        | some userId, some _ =>
          match st.userSocketsMap userId with
          | some userSockets =>
            if (userSockets.erase sid).isEmpty then
              Function.update st.userSocketsMap userId none
            else Function.update st.userSocketsMap userId (some (userSockets.erase sid))
          | none => st.userSocketsMap
        | _, _ => st.userSocketsMap := by
  unfold handleDisconnect
  dsimp only
  repeat' split
  all_goals rfl

theorem hc_events (st : St) (c : Conn) :
    (handleConnection st c).2
      = (if ((st.userSocketsMap c.userId).getD []).isEmpty && userExists st c.userId then
           [Ev.statusChanged c.userId c.companyId true]
         else [])
        ++ (match c.sessionId with
            | some sessionId =>
              if (sadd ((st.sessionSocketsMap sessionId).getD []) c.sid).length == 1 then
                if st.sessionsDb.contains sessionId && userExists st c.userId then
                  [Ev.sessionAdded sessionId c.userId c.companyId]
                else []
              else []
            | none => [])
        ++ ((if getUnreadCount st c.userId > 0 then
               [Ev.unreadBatch c.sid (getUnreadCount st c.userId)]
             else [])
             ++ [Ev.unreadCountEv c.sid (getUnreadCount st c.userId)]) := rfl

theorem hd_events (st : St) (sid : Nat) :
    (handleDisconnect st sid).2
      = (match st.socketSessionMap sid with
         | some sessionId =>
           match st.sessionSocketsMap sessionId with
           | some sessionSockets =>
             if (sessionSockets.erase sid).isEmpty then
               match st.socketUserMap sid, st.socketCompanyMap sid with
               | some userId, some companyId => [Ev.sessionRemoved sessionId userId companyId]
               | _, _ => []
             else []
           | none => []
         | none => [])
        ++ (match st.socketUserMap sid, st.socketCompanyMap sid with
            | some userId, some companyId =>
              match st.userSocketsMap userId with
              | some userSockets =>
                if (userSockets.erase sid).isEmpty then
                  (if userExists st userId then [Ev.statusChanged userId companyId false] else [])
                else []
              | none => []
            | _, _ => []) := rfl

theorem hc_connCount (st : St) (c : Conn) (u : Nat) :
    connCount (handleConnection st c).1 u
      = if c.userId = u then (sadd ((st.userSocketsMap u).getD []) c.sid).length
        else connCount st u := by
  unfold connCount
  rw [hc_userSocketsMap]
  by_cases h : c.userId = u
  · subst h
    rw [Function.update_same, if_pos rfl]
    rfl
  · rw [Function.update_noteq (Ne.symm h), if_neg h]

theorem isEmpty_iff_connCount_zero (st : St) (u : Nat) :
    ((st.userSocketsMap u).getD []).isEmpty = true ↔ connCount st u = 0 := by
  unfold connCount
  rw [List.isEmpty_iff, List.length_eq_zero]

theorem hc_statusOnline (st : St) (c : Conn) (u : Nat) (hu : userExists st u = true) :
    countEv (isOnlineEv u) (handleConnection st c).2
      = if c.userId = u ∧ connCount st u = 0 then 1 else 0 := by
  rw [hc_events, countEv_append, countEv_append]
  have h2 : countEv (isOnlineEv u)
      (match c.sessionId with
       | some sessionId =>
         if (sadd ((st.sessionSocketsMap sessionId).getD []) c.sid).length == 1 then
           if st.sessionsDb.contains sessionId && userExists st c.userId then
             [Ev.sessionAdded sessionId c.userId c.companyId]
           else []
         else []
       | none => []) = 0 := by
    cases c.sessionId
    · rfl
    · dsimp only
      repeat' split
      all_goals rfl
  have h3 : countEv (isOnlineEv u)
      ((if getUnreadCount st c.userId > 0 then [Ev.unreadBatch c.sid (getUnreadCount st c.userId)]
        else []) ++ [Ev.unreadCountEv c.sid (getUnreadCount st c.userId)]) = 0 := by
    rw [countEv_append]
    split
    · rfl
    · rfl
  rw [h2, h3]
  simp only [Nat.add_zero]
  by_cases h : c.userId = u
  · subst h
    rw [hu, Bool.and_true]
    by_cases hempty : ((st.userSocketsMap c.userId).getD []).isEmpty = true
    · rw [hempty, if_pos rfl,
        if_pos (And.intro rfl ((isEmpty_iff_connCount_zero st c.userId).mp hempty))]
      simp [countEv, isOnlineEv]
    · have hfalse : ((st.userSocketsMap c.userId).getD []).isEmpty = false := by
        simpa using hempty
      have hne : ¬(c.userId = c.userId ∧ connCount st c.userId = 0) :=
        fun hcontra => hempty ((isEmpty_iff_connCount_zero st c.userId).mpr hcontra.2)
      rw [hfalse, if_neg hne]
      rfl
  · have hne : ¬(c.userId = u ∧ connCount st u = 0) := fun hcontra => h hcontra.1
    rw [if_neg hne]
    have hfa : isOnlineEv u (Ev.statusChanged c.userId c.companyId true) = false := by
      simp [isOnlineEv]
      intro hcontra
      exact absurd hcontra h
    split
    · simp [countEv, hfa]
    · rfl

theorem hc_statusOffline (st : St) (c : Conn) (u : Nat) :
    countEv (isOfflineEv u) (handleConnection st c).2 = 0 := by
  rw [hc_events, countEv_append, countEv_append]
  have h1 : countEv (isOfflineEv u)
      (if ((st.userSocketsMap c.userId).getD []).isEmpty && userExists st c.userId then
        [Ev.statusChanged c.userId c.companyId true] else []) = 0 := by
    split
    · simp [countEv, isOfflineEv]
    · rfl
  have h2 : countEv (isOfflineEv u)
      (match c.sessionId with
       | some sessionId =>
         if (sadd ((st.sessionSocketsMap sessionId).getD []) c.sid).length == 1 then
           if st.sessionsDb.contains sessionId && userExists st c.userId then
             [Ev.sessionAdded sessionId c.userId c.companyId]
           else []
         else []
       | none => []) = 0 := by
    cases c.sessionId
    · rfl
    · dsimp only
      repeat' split
      all_goals rfl
  have h3 : countEv (isOfflineEv u)
      ((if getUnreadCount st c.userId > 0 then [Ev.unreadBatch c.sid (getUnreadCount st c.userId)]
        else []) ++ [Ev.unreadCountEv c.sid (getUnreadCount st c.userId)]) = 0 := by
    rw [countEv_append]
    split
    · rfl
    · rfl
  rw [h1, h2, h3]

theorem hd_statusOnline (st : St) (sid u : Nat) :
    countEv (isOnlineEv u) (handleDisconnect st sid).2 = 0 := by
  rw [hd_events, countEv_append]
  have h1 : countEv (isOnlineEv u)
      (match st.socketSessionMap sid with
       | some sessionId =>
         match st.sessionSocketsMap sessionId with
         | some sessionSockets =>
           if (sessionSockets.erase sid).isEmpty then
             match st.socketUserMap sid, st.socketCompanyMap sid with
             | some userId, some companyId => [Ev.sessionRemoved sessionId userId companyId]
             | _, _ => []
           else []
         | none => []
       | none => []) = 0 := by
    repeat' split
    all_goals rfl
  have h2 : countEv (isOnlineEv u)
      (match st.socketUserMap sid, st.socketCompanyMap sid with
       | some userId, some companyId =>
         match st.userSocketsMap userId with
         | some userSockets =>
           if (userSockets.erase sid).isEmpty then
             (if userExists st userId then [Ev.statusChanged userId companyId false] else [])
           else []
         | none => []
       | _, _ => []) = 0 := by
    repeat' split
    all_goals first | rfl | simp [countEv, isOnlineEv]
  rw [h1, h2]

theorem hd_statusOffline (st : St) (sid u : Nat) (hu : userExists st u = true) :
    countEv (isOfflineEv u) (handleDisconnect st sid).2
      = if st.socketUserMap sid = some u ∧ (st.socketCompanyMap sid).isSome = true ∧
            (st.userSocketsMap u).isSome = true ∧
            (((st.userSocketsMap u).getD []).erase sid).isEmpty = true
        then 1 else 0 := by
  rw [hd_events, countEv_append]
  have h1 : countEv (isOfflineEv u)
      (match st.socketSessionMap sid with
       | some sessionId =>
         match st.sessionSocketsMap sessionId with
         | some sessionSockets =>
           if (sessionSockets.erase sid).isEmpty then
             match st.socketUserMap sid, st.socketCompanyMap sid with
             | some userId, some companyId => [Ev.sessionRemoved sessionId userId companyId]
             | _, _ => []
           else []
         | none => []
       | none => []) = 0 := by
    repeat' split
    all_goals rfl
  rw [h1, Nat.zero_add]
  cases hsu : st.socketUserMap sid with
  | none =>
    rw [if_neg (fun hcontra => Option.noConfusion hcontra.1)]
    rfl
  | some v =>
    cases hsc : st.socketCompanyMap sid with
    | none =>
      rw [if_neg (fun hcontra => by simp at hcontra)]
      rfl
    | some cc =>
      dsimp only
      by_cases hv : v = u
      · subst hv
        cases hus : st.userSocketsMap v with
        | none =>
          simp [countEv]
        | some l =>
          by_cases hemp : (l.erase sid).isEmpty = true
          · have hcond : some v = some v ∧ (Option.some cc).isSome = true ∧
                (Option.some l).isSome = true ∧
                (((Option.some l).getD ([] : List Nat)).erase sid).isEmpty = true :=
              ⟨rfl, rfl, rfl, hemp⟩
            rw [if_pos hcond]
            dsimp only
            rw [if_pos hemp, if_pos hu]
            simp [countEv, isOfflineEv]
          · have hncond : ¬(some v = some v ∧ (Option.some cc).isSome = true ∧
                (Option.some l).isSome = true ∧
                (((Option.some l).getD ([] : List Nat)).erase sid).isEmpty = true) :=
              fun hcontra => hemp hcontra.2.2.2
            rw [if_neg hncond]
            dsimp only
            rw [if_neg hemp]
            rfl
      · have hfa : isOfflineEv u (Ev.statusChanged v cc false) = false := by
          simp [isOfflineEv]
          intro hcontra
          exact absurd hcontra hv
        repeat' split
        all_goals first
          | rfl
          | (simp [countEv, hfa]
             rename_i hcond
             exact absurd (Option.some_injective _ hcond.1) hv)
          | simp [countEv, hfa]

theorem hd_connCount (st : St) (sid u : Nat) :
    connCount (handleDisconnect st sid).1 u
      = if st.socketUserMap sid = some u ∧ (st.socketCompanyMap sid).isSome = true then
          (((st.userSocketsMap u).getD []).erase sid).length
        else connCount st u := by
  unfold connCount
  rw [hd_userSocketsMap]
  cases hsu : st.socketUserMap sid with
  | none =>
    rw [if_neg (fun hcontra => Option.noConfusion hcontra.1)]
  | some v =>
    cases hsc : st.socketCompanyMap sid with
    | none =>
      rw [if_neg (fun hcontra => by simp at hcontra)]
    | some cc =>
      dsimp only
      by_cases hv : v = u
      · subst hv
        rw [if_pos ⟨rfl, by simp⟩]
        cases hus : st.userSocketsMap v with
        | none =>
          simp [hus]
        | some l =>
          by_cases hemp : (l.erase sid).isEmpty = true
          · simp [hemp, Function.update_same, List.isEmpty_iff.mp hemp]
          · simp [hemp, Function.update_same]
      · rw [if_neg (fun hcontra => hv (Option.some_injective _ hcontra.1))]
        cases hus : st.userSocketsMap v with
        | none => rfl
        | some l =>
          have hvu : u ≠ v := fun hh => hv hh.symm
          by_cases hemp : (l.erase sid).isEmpty = true
          · simp [hemp, Function.update_noteq hvu]
          · simp [hemp, Function.update_noteq hvu]

theorem hc_noEmpty (st : St) (c : Conn) (h : noEmptyUserEntries st) :
    noEmptyUserEntries (handleConnection st c).1 := by
  intro u
  rw [hc_userSocketsMap]
  by_cases hu : u = c.userId
  · subst hu
    rw [Function.update_same]
    intro hcontra
    exact sadd_ne_nil _ _ (Option.some_injective _ hcontra)
  · rw [Function.update_noteq hu]
    exact h u

theorem hd_noEmpty (st : St) (sid : Nat) (h : noEmptyUserEntries st) :
    noEmptyUserEntries (handleDisconnect st sid).1 := by
  intro u
  rw [hd_userSocketsMap]
  cases hsu : st.socketUserMap sid with
  | none => exact h u
  | some v =>
    cases hsc : st.socketCompanyMap sid with
    | none => exact h u
    | some cc =>
      dsimp only
      cases hus : st.userSocketsMap v with
      | none => exact h u
      | some l =>
        by_cases hemp : (l.erase sid).isEmpty = true
        · simp only [hemp, if_true]
          by_cases huv : u = v
          · subst huv
            rw [Function.update_same]
            exact fun hcontra => Option.noConfusion hcontra
          · rw [Function.update_noteq huv]
            exact h u
        · simp only [hemp, if_false, Bool.false_eq_true]
          by_cases huv : u = v
          · subst huv
            rw [Function.update_same]
            intro hcontra
            exact hemp (by rw [Option.some_injective _ hcontra]; rfl)
          · rw [Function.update_noteq huv]
            exact h u

theorem step_users (st : St) (e : GEvent) : (step st e).1.users = st.users := by
  cases e with
  | connect c => exact hc_users st c
  | disconnect sid => exact hd_users st sid

theorem step_noEmpty (st : St) (e : GEvent) (h : noEmptyUserEntries st) :
    noEmptyUserEntries (step st e).1 := by
  cases e with
  | connect c => exact hc_noEmpty st c h
  | disconnect sid => exact hd_noEmpty st sid h

theorem step_statusCounts (st : St) (e : GEvent) (u : Nat)
    (hne : noEmptyUserEntries st) (hu : userExists st u = true) :
    countEv (isOnlineEv u) (step st e).2
        = (if connCount st u = 0 ∧ connCount (step st e).1 u ≠ 0 then 1 else 0) ∧
    countEv (isOfflineEv u) (step st e).2
        = (if connCount st u ≠ 0 ∧ connCount (step st e).1 u = 0 then 1 else 0) := by
  cases e with
  | connect c =>
    have honline := hc_statusOnline st c u hu
    have hoffline := hc_statusOffline st c u
    have hcount := hc_connCount st c u
    constructor
    · show countEv (isOnlineEv u) (handleConnection st c).2 = _
      rw [honline,
        show (step st (GEvent.connect c)).1 = (handleConnection st c).1 from rfl, hcount]
      by_cases h1 : c.userId = u
      · rw [if_pos h1]
        by_cases h2 : connCount st u = 0
        · rw [if_pos (And.intro h1 h2),
            if_pos (And.intro h2 (Nat.pos_iff_ne_zero.mp (sadd_length_pos _ _)))]
        · rw [if_neg (fun hc2 => h2 hc2.2), if_neg (fun hc2 => h2 hc2.1)]
      · rw [if_neg h1, if_neg (fun hc2 => h1 hc2.1),
          if_neg (fun hc2 => hc2.2 hc2.1)]
    · show countEv (isOfflineEv u) (handleConnection st c).2 = _
      rw [hoffline,
        show (step st (GEvent.connect c)).1 = (handleConnection st c).1 from rfl, hcount]
      by_cases h1 : c.userId = u
      · rw [if_pos h1]
        rw [if_neg (fun hc2 => Nat.pos_iff_ne_zero.mp (sadd_length_pos _ _) hc2.2)]
      · rw [if_neg h1, if_neg (fun hc2 => hc2.1 hc2.2)]
  | disconnect sid =>
    have honline := hd_statusOnline st sid u
    have hoffline := hd_statusOffline st sid u hu
    have hcount := hd_connCount st sid u
    constructor
    · show countEv (isOnlineEv u) (handleDisconnect st sid).2 = _
      rw [honline,
        show (step st (GEvent.disconnect sid)).1 = (handleDisconnect st sid).1 from rfl,
        hcount]
      by_cases hd : st.socketUserMap sid = some u ∧ (st.socketCompanyMap sid).isSome = true
      · rw [if_pos hd]
        have hng : ¬(connCount st u = 0 ∧
            (((st.userSocketsMap u).getD []).erase sid).length ≠ 0) := by
          intro hc2
          have h0 : (st.userSocketsMap u).getD [] = [] := List.length_eq_zero.mp hc2.1
          rw [h0] at hc2
          exact hc2.2 rfl
        rw [if_neg hng]
      · rw [if_neg hd, if_neg (fun hc2 => hc2.2 hc2.1)]
    · show countEv (isOfflineEv u) (handleDisconnect st sid).2 = _
      rw [hoffline,
        show (step st (GEvent.disconnect sid)).1 = (handleDisconnect st sid).1 from rfl,
        hcount]
      by_cases hd : st.socketUserMap sid = some u ∧ (st.socketCompanyMap sid).isSome = true
      · rw [if_pos hd]
        cases hus : st.userSocketsMap u with
        | none =>
          rw [if_neg (fun hc4 => by simp at hc4)]
          have hng : ¬(connCount st u ≠ 0 ∧
              (((Option.none : Option (List Nat)).getD []).erase sid).length = 0) :=
            fun hc2 => hc2.1 (by unfold connCount; rw [hus]; rfl)
          rw [if_neg hng]
        | some l =>
          have hlne : l ≠ [] := fun hl => hne u (by rw [hus, hl])
          have hcnt : connCount st u = l.length := by unfold connCount; rw [hus]; rfl
          by_cases hemp : (l.erase sid).isEmpty = true
          · have hcond : st.socketUserMap sid = some u ∧
                (st.socketCompanyMap sid).isSome = true ∧
                (Option.some l).isSome = true ∧
                (((Option.some l).getD ([] : List Nat)).erase sid).isEmpty = true :=
              ⟨hd.1, hd.2, rfl, hemp⟩
            have hcross : connCount st u ≠ 0 ∧
                (((Option.some l).getD ([] : List Nat)).erase sid).length = 0 := by
              constructor
              · rw [hcnt]
                exact fun h0 => hlne (List.length_eq_zero.mp h0)
              · show (l.erase sid).length = 0
                rw [List.isEmpty_iff.mp hemp]
                rfl
            rw [if_pos hcond, if_pos hcross]
          · have hncond : ¬(st.socketUserMap sid = some u ∧
                (st.socketCompanyMap sid).isSome = true ∧
                (Option.some l).isSome = true ∧
                (((Option.some l).getD ([] : List Nat)).erase sid).isEmpty = true) :=
              fun hc4 => hemp hc4.2.2.2
            have hncross : ¬(connCount st u ≠ 0 ∧
                (((Option.some l).getD ([] : List Nat)).erase sid).length = 0) := by
              intro hc2
              exact hemp (by
                have h0 : (l.erase sid) = [] := List.length_eq_zero.mp hc2.2
                rw [h0]
                rfl)
            rw [if_neg hncond, if_neg hncross]
      · have hncond : ¬(st.socketUserMap sid = some u ∧
            (st.socketCompanyMap sid).isSome = true ∧
            (st.userSocketsMap u).isSome = true ∧
            (((st.userSocketsMap u).getD []).erase sid).isEmpty = true) :=
          fun hc4 => hd ⟨hc4.1, hc4.2.1⟩
        rw [if_neg hncond, if_neg hd, if_neg (fun hc2 => hc2.1 hc2.2)]

theorem run_statusCounts (u : Nat) : ∀ (evs : List GEvent) (st : St),
    noEmptyUserEntries st → userExists st u = true →
    countEv (isOnlineEv u) (run st evs).2 = upCrossings u st evs ∧
    countEv (isOfflineEv u) (run st evs).2 = downCrossings u st evs := by
  intro evs
  induction evs with
  | nil => exact fun st h1 h2 => ⟨rfl, rfl⟩
  | cons e rest ih =>
    intro st hne hu
    have hstep := step_statusCounts st e u hne hu
    have hne1 := step_noEmpty st e hne
    have hu1 : userExists (step st e).1 u = true := by
      unfold userExists
      rw [step_users]
      exact hu
    have hrest := ih (step st e).1 hne1 hu1
    constructor
    · show countEv (isOnlineEv u) ((step st e).2 ++ (run (step st e).1 rest).2)
          = (if connCount st u = 0 ∧ connCount (step st e).1 u ≠ 0 then 1 else 0)
            + upCrossings u (step st e).1 rest
      rw [countEv_append, hstep.1, hrest.1]
    · show countEv (isOfflineEv u) ((step st e).2 ++ (run (step st e).1 rest).2)
          = (if connCount st u ≠ 0 ∧ connCount (step st e).1 u = 0 then 1 else 0)
            + downCrossings u (step st e).1 rest
      rw [countEv_append, hstep.2, hrest.2]

/-! ### Claim C1: status broadcasts fire exactly on zero-boundary crossings -/

/-- C1: over every sequence of organic connect/disconnect events (any number
of sockets, any users), given that the observed user has a `users` row and
the registry starts with no empty socket-set entries (true of every reachable
state), the number of `user-status-changed{online:true}` events emitted for
that user equals the number of steps at which the user's live-connection
count crosses 0 to nonzero, and the number of `{online:false}` events equals
the number of crossings from nonzero to 0; connects and disconnects that do
not cross zero fire neither. -/
theorem status_events_match_crossings (u : Nat) (evs : List GEvent) (st : St)
    (hne : noEmptyUserEntries st) (hu : userExists st u = true) :
    countEv (isOnlineEv u) (run st evs).2 = upCrossings u st evs ∧
    countEv (isOfflineEv u) (run st evs).2 = downCrossings u st evs :=
  run_statusCounts u evs st hne hu

def c1Evs : List GEvent :=
  [GEvent.connect ⟨11, 42, 7, none, false⟩, GEvent.connect ⟨12, 42, 7, none, false⟩,
   GEvent.disconnect 11, GEvent.disconnect 12, GEvent.connect ⟨13, 42, 7, none, false⟩]

theorem status_events_match_crossings_witness :
    countEv (isOnlineEv 42) (run noopSt c1Evs).2 = upCrossings 42 noopSt c1Evs ∧
    countEv (isOfflineEv 42) (run noopSt c1Evs).2 = downCrossings 42 noopSt c1Evs :=
  status_events_match_crossings 42 c1Evs noopSt
    (fun _ h => Option.noConfusion h) (by decide)

/-! ### Projection lemmas: how the handlers transform each registry map -/

theorem hc_socketUserMap (st : St) (c : Conn) :
    (handleConnection st c).1.socketUserMap
      = Function.update st.socketUserMap c.sid (some c.userId) := by
  unfold handleConnection
  dsimp only
  cases c.sessionId <;> dsimp only <;> repeat' split
  all_goals rfl

theorem hc_socketCompanyMap (st : St) (c : Conn) :
    (handleConnection st c).1.socketCompanyMap
      = Function.update st.socketCompanyMap c.sid (some c.companyId) := by
  unfold handleConnection
  dsimp only
  cases c.sessionId <;> dsimp only <;> repeat' split
  all_goals rfl

theorem hc_socketSessionMap (st : St) (c : Conn) :
    (handleConnection st c).1.socketSessionMap
      = match c.sessionId with
        | some sessionId => Function.update st.socketSessionMap c.sid (some sessionId)
        | none => st.socketSessionMap := by
  unfold handleConnection
  dsimp only
  cases c.sessionId <;> dsimp only <;> repeat' split
  all_goals rfl

theorem hc_roomCompany (st : St) (c : Conn) :
    (handleConnection st c).1.roomCompany
      = Function.update st.roomCompany c.sid (some c.companyId) := by
  unfold handleConnection
  dsimp only
  cases c.sessionId <;> dsimp only <;> repeat' split
  all_goals rfl

theorem hc_liveSockets (st : St) (c : Conn) :
    (handleConnection st c).1.liveSockets = st.liveSockets ++ [c.sid] := by
  unfold handleConnection
  dsimp only
  cases c.sessionId <;> dsimp only <;> repeat' split
  all_goals rfl

theorem hc_presence (st : St) (c : Conn) :
    (handleConnection st c).1.presence
      = if ((st.userSocketsMap c.userId).getD []).isEmpty then
          Function.update st.presence c.companyId (sadd (st.presence c.companyId) c.userId)
        else st.presence := by
  unfold handleConnection markUserOnline
  dsimp only
  cases c.sessionId <;> dsimp only <;> repeat' split
  all_goals rfl

theorem hd_socketUserMap (st : St) (sid : Nat) :
    (handleDisconnect st sid).1.socketUserMap
      = Function.update st.socketUserMap sid none := by
  unfold handleDisconnect
  dsimp only
  repeat' split
  all_goals rfl

theorem hd_socketCompanyMap (st : St) (sid : Nat) :
    (handleDisconnect st sid).1.socketCompanyMap
      = Function.update st.socketCompanyMap sid none := by
  unfold handleDisconnect
  dsimp only
  repeat' split
  all_goals rfl

theorem hd_socketSessionMap (st : St) (sid : Nat) :
    (handleDisconnect st sid).1.socketSessionMap
      = Function.update st.socketSessionMap sid none := by
  unfold handleDisconnect
  dsimp only
  repeat' split
  all_goals rfl

theorem hd_liveSockets (st : St) (sid : Nat) :
    (handleDisconnect st sid).1.liveSockets = st.liveSockets.erase sid := by
  unfold handleDisconnect
  dsimp only
  repeat' split
  all_goals rfl

theorem hd_sessionSocketsMap (st : St) (sid : Nat) :
    (handleDisconnect st sid).1.sessionSocketsMap
      = match st.socketSessionMap sid with
        | some sessionId =>
          match st.sessionSocketsMap sessionId with
          | some sessionSockets =>
            if (sessionSockets.erase sid).isEmpty then
              Function.update st.sessionSocketsMap sessionId none
            else Function.update st.sessionSocketsMap sessionId (some (sessionSockets.erase sid))
          | none => st.sessionSocketsMap
        | none => st.sessionSocketsMap := by
  unfold handleDisconnect markUserOffline
  dsimp only
  repeat' split
  all_goals first | rfl | simp_all

theorem hd_presence (st : St) (sid : Nat) :
    (handleDisconnect st sid).1.presence
      = match st.socketUserMap sid, st.socketCompanyMap sid with
        | some userId, some companyId =>
          match st.userSocketsMap userId with
          | some userSockets =>
            if (userSockets.erase sid).isEmpty then
              Function.update st.presence companyId
                ((st.presence companyId).filter (fun x => x != userId))
            else st.presence
          | none => st.presence
        | _, _ => st.presence := by
  unfold handleDisconnect markUserOffline
  dsimp only
  repeat' split
  all_goals first | rfl | simp_all

/-! ### Claim C6: session-removed is independent of the user's other sockets -/

/-- C6: disconnecting the last socket of session `s` while its user still has
another live connection (the user's socket set has at least two entries) emits
exactly one `session-removed` event for `s` — and it is the only session event
of the disconnect — with no `user-status-changed{online:false}` broadcast; the
session's entry is deleted from the session registry while the user keeps a
non-empty socket set. Session presence thus mirrors only the emptiness of the
session's own connection set, independently of the user's connection count. -/
theorem c6_session_removed (st : St) (sid u s cc : Nat) (l : List Nat)
    (hsm : st.socketUserMap sid = some u) (hcm : st.socketCompanyMap sid = some cc)
    (hss : st.socketSessionMap sid = some s)
    (hset : st.sessionSocketsMap s = some [sid])
    (hus : st.userSocketsMap u = some l)
    (hmem : sid ∈ l) (hlen : 2 ≤ l.length) :
    countEv (isSessionRemovedEv s) (handleDisconnect st sid).2 = 1 ∧
    countEv isSessionEv (handleDisconnect st sid).2 = 1 ∧
    countEv (isOfflineEv u) (handleDisconnect st sid).2 = 0 ∧
    (handleDisconnect st sid).1.sessionSocketsMap s = none ∧
    (handleDisconnect st sid).1.userSocketsMap u = some (l.erase sid) ∧
    (l.erase sid).isEmpty = false := by
  have hlerase : (l.erase sid).length = l.length - 1 := List.length_erase_of_mem hmem
  have hnemp : (l.erase sid).isEmpty = false := by
    cases he : l.erase sid with
    | nil =>
      rw [he] at hlerase
      simp at hlerase
      omega
    | cons a t => rfl
  have hevs : (handleDisconnect st sid).2 = [Ev.sessionRemoved s u cc] := by
    rw [hd_events, hss, hsm, hcm]
    dsimp only
    rw [hset, hus]
    dsimp only
    simp [hnemp]
  refine ⟨?_, ?_, ?_, ?_, ?_, hnemp⟩
  · rw [hevs]
    simp [countEv, isSessionRemovedEv]
  · rw [hevs]
    rfl
  · rw [hevs]
    rfl
  · rw [hd_sessionSocketsMap, hss]
    dsimp only
    rw [hset]
    dsimp only
    simp [Function.update_same]
  · rw [hd_userSocketsMap, hsm, hcm]
    dsimp only
    rw [hus]
    dsimp only
    simp [hnemp, Function.update_same]

theorem mem_sadd_self (s : List Nat) (x : Nat) : x ∈ sadd s x := by
  unfold sadd
  split
  · assumption
  · exact List.mem_append_right s (List.mem_singleton.mpr rfl)

theorem not_mem_filter_ne (l : List Nat) (u : Nat) : u ∉ l.filter (fun x => x != u) := by
  intro h
  have h2 := (List.mem_filter.mp h).2
  simp at h2

/-! ### Claim C10: sessionless connections never fire session events -/

/-- C10: a connection accepted with no login-session id is fully registered
(socket-to-user entry, tenant broadcast room, user socket set) and counts
toward presence — its first connect fires `user-status-changed{online:true}`
and adds the user to the presence store, and disconnecting it fires
`user-status-changed{online:false}` and removes the user — yet neither the
connect nor the disconnect emits any `session-added` or `session-removed`
event. -/
theorem c10_sessionless (st : St) (c : Conn)
    (hsess : c.sessionId = none) (hu : userExists st c.userId = true)
    (hfirst : st.userSocketsMap c.userId = none)
    (hsock : st.socketSessionMap c.sid = none) :
    countEv isSessionEv (handleConnection st c).2 = 0 ∧
    (handleConnection st c).1.socketUserMap c.sid = some c.userId ∧
    (handleConnection st c).1.roomCompany c.sid = some c.companyId ∧
    (handleConnection st c).1.userSocketsMap c.userId = some [c.sid] ∧
    countEv (isOnlineEv c.userId) (handleConnection st c).2 = 1 ∧
    c.userId ∈ (handleConnection st c).1.presence c.companyId ∧
    countEv isSessionEv (handleDisconnect (handleConnection st c).1 c.sid).2 = 0 ∧
    countEv (isOfflineEv c.userId) (handleDisconnect (handleConnection st c).1 c.sid).2 = 1 ∧
    c.userId ∉ (handleDisconnect (handleConnection st c).1 c.sid).1.presence c.companyId := by
  have hcnt0 : connCount st c.userId = 0 := by
    unfold connCount
    rw [hfirst]
    rfl
  have e1 : (handleConnection st c).1.socketUserMap c.sid = some c.userId := by
    rw [hc_socketUserMap, Function.update_same]
  have e2 : (handleConnection st c).1.socketCompanyMap c.sid = some c.companyId := by
    rw [hc_socketCompanyMap, Function.update_same]
  have e3 : (handleConnection st c).1.socketSessionMap c.sid = none := by
    rw [hc_socketSessionMap, hsess]
    exact hsock
  have e4 : (handleConnection st c).1.userSocketsMap c.userId = some [c.sid] := by
    rw [hc_userSocketsMap, Function.update_same, hfirst]
    rfl
  have e5 : userExists (handleConnection st c).1 c.userId = true := by
    unfold userExists
    rw [hc_users]
    exact hu
  refine ⟨?_, e1, ?_, e4, ?_, ?_, ?_, ?_, ?_⟩
  · rw [hc_events, hsess]
    dsimp only
    repeat' split
    all_goals rfl
  · rw [hc_roomCompany, Function.update_same]
  · rw [hc_statusOnline st c c.userId hu, if_pos ⟨rfl, hcnt0⟩]
  · rw [hc_presence, hfirst,
      if_pos (show (((none : Option (List Nat)).getD ([] : List Nat)).isEmpty) = true from rfl),
      Function.update_same]
    exact mem_sadd_self _ _
  · rw [hd_events, e3, e1, e2]
    dsimp only
    rw [e4]
    dsimp only
    simp [countEv, isSessionEv]
  · rw [hd_statusOffline _ _ _ e5]
    rw [if_pos ⟨e1, by rw [e2]; rfl, by rw [e4]; rfl, by rw [e4]; simp⟩]
  · rw [hd_presence, e1, e2]
    dsimp only
    rw [e4]
    dsimp only
    simp only [List.erase_cons_head, List.isEmpty_nil]
    rw [if_pos trivial, Function.update_same]
    exact not_mem_filter_ne _ _

theorem forceSockets_nil (st : St) : forceSockets st [] = (st, [], 0) := rfl

theorem forceSockets_cons_live (st : St) (sid : Nat) (rest : List Nat)
    (h : st.liveSockets.contains sid = true) :
    forceSockets st (sid :: rest)
      = ((forceSockets (handleDisconnect st sid).1 rest).1,
         Ev.forceDisconnect sid revokeReason :: (handleDisconnect st sid).2
           ++ (forceSockets (handleDisconnect st sid).1 rest).2.1,
         (forceSockets (handleDisconnect st sid).1 rest).2.2 + 1) := by
  conv_lhs => rw [forceSockets]
  rw [if_pos h]

/-! ### Claim C3: force-disconnecting a two-socket user -/

/-- C3 (amended): force-disconnecting user `u` while `u` has two live
sessionless sockets closes both with a `force-disconnect` event each and
empties the user's presence entry and socket set — but the full trace carries
exactly TWO `user-status-changed{online:false}` broadcasts, not one: closing
the second socket runs the nested disconnect handler, whose bookkeeping sees
the user's last socket leave and broadcasts offline, and then
`forceDisconnectUser` itself broadcasts offline again. -/
theorem c3_force_disconnect_two_sockets (st : St) (u cc s1 s2 : Nat)
    (hnd : st.liveSockets.Nodup) (h12 : s1 ≠ s2)
    (hu1m : st.socketUserMap s1 = some u) (hc1m : st.socketCompanyMap s1 = some cc)
    (hu2m : st.socketUserMap s2 = some u) (hc2m : st.socketCompanyMap s2 = some cc)
    (hs1 : st.socketSessionMap s1 = none) (hs2 : st.socketSessionMap s2 = none)
    (hl1 : s1 ∈ st.liveSockets) (hl2 : s2 ∈ st.liveSockets)
    (hus : st.userSocketsMap u = some [s1, s2])
    (hu : userExists st u = true) :
    (forceDisconnectUser st u).2.1
        = [Ev.forceDisconnect s1 revokeReason, Ev.forceDisconnect s2 revokeReason,
           Ev.statusChanged u cc false, Ev.statusChanged u cc false] ∧
    (forceDisconnectUser st u).2.2 = 2 ∧
    countEv (isOfflineEv u) (forceDisconnectUser st u).2.1 = 2 ∧
    countEv (isForceEv s1) (forceDisconnectUser st u).2.1 = 1 ∧
    countEv (isForceEv s2) (forceDisconnectUser st u).2.1 = 1 ∧
    u ∉ (forceDisconnectUser st u).1.presence cc ∧
    (forceDisconnectUser st u).1.userSocketsMap u = none ∧
    s1 ∉ (forceDisconnectUser st u).1.liveSockets ∧
    s2 ∉ (forceDisconnectUser st u).1.liveSockets := by
  -- facts about the first nested disconnect
  have a_events : (handleDisconnect st s1).2 = [] := by
    rw [hd_events, hs1, hu1m, hc1m]
    dsimp only
    rw [hus]
    dsimp only
    simp
  have a1 : (handleDisconnect st s1).1.socketUserMap s2 = some u := by
    rw [hd_socketUserMap, Function.update_noteq (Ne.symm h12)]
    exact hu2m
  have a2 : (handleDisconnect st s1).1.socketCompanyMap s2 = some cc := by
    rw [hd_socketCompanyMap, Function.update_noteq (Ne.symm h12)]
    exact hc2m
  have a3 : (handleDisconnect st s1).1.socketSessionMap s2 = none := by
    rw [hd_socketSessionMap, Function.update_noteq (Ne.symm h12)]
    exact hs2
  have a4 : (handleDisconnect st s1).1.userSocketsMap u = some [s2] := by
    rw [hd_userSocketsMap, hu1m, hc1m]
    dsimp only
    rw [hus]
    dsimp only
    simp
  have a5 : userExists (handleDisconnect st s1).1 u = true := by
    unfold userExists
    rw [hd_users]
    exact hu
  -- facts about the second nested disconnect
  have b_events : (handleDisconnect (handleDisconnect st s1).1 s2).2
      = [Ev.statusChanged u cc false] := by
    rw [hd_events, a3, a1, a2]
    dsimp only
    rw [a4]
    dsimp only
    simp [a5]
  have b1 : (handleDisconnect (handleDisconnect st s1).1 s2).1.userSocketsMap u = none := by
    rw [hd_userSocketsMap, a1, a2]
    dsimp only
    rw [a4]
    dsimp only
    simp
  have b3 : (handleDisconnect (handleDisconnect st s1).1 s2).1.liveSockets
      = (st.liveSockets.erase s1).erase s2 := by
    rw [hd_liveSockets, hd_liveSockets]
  -- the loop over the snapshot [s1, s2]
  have hcont1 : st.liveSockets.contains s1 = true := by simp [hl1]
  have hcont2 : (handleDisconnect st s1).1.liveSockets.contains s2 = true := by
    rw [hd_liveSockets]
    simp [(List.mem_erase_of_ne (Ne.symm h12)).mpr hl2]
  have hfs := forceSockets_cons_live st s1 [s2] hcont1
  rw [forceSockets_cons_live _ s2 [] hcont2, forceSockets_nil] at hfs
  dsimp only at hfs
  rw [a_events, b_events] at hfs
  -- assemble forceDisconnectUser
  unfold forceDisconnectUser
  rw [hus]
  try dsimp only
  rw [hu1m]
  rw [if_pos (show ((some u : Option Nat)).isSome = true from rfl)]
  rw [hc1m]
  try dsimp only
  rw [hfs]
  try dsimp only
  split
  case isFalse hfalse =>
    exfalso
    revert hfalse
    simp only [userExists, markUserOffline]
    try dsimp only
    rw [hd_users, hd_users]
    simp only [userExists] at hu
    rw [hu]
    simp
  case isTrue htrue =>
    dsimp only
    refine ⟨rfl, rfl, ?_, ?_, ?_, ?_, ?_, ?_, ?_⟩
    · simp [countEv, isOfflineEv]
    · simp [countEv, isForceEv, revokeReason, Ne.symm h12]
    · simp [countEv, isForceEv, revokeReason, h12]
    · simp only [markUserOffline]
      try dsimp only
      rw [Function.update_same]
      exact not_mem_filter_ne _ _
    · simp only [markUserOffline]
      try dsimp only
      rw [Function.update_same]
    · simp only [markUserOffline]
      try dsimp only
      rw [b3]
      intro hmem
      have h1 := (List.Nodup.mem_erase_iff (hnd.erase s1)).mp hmem
      have h2 := (List.Nodup.mem_erase_iff hnd).mp h1.2
      exact h2.1 rfl
    · simp only [markUserOffline]
      try dsimp only
      rw [b3]
      intro hmem
      have h1 := (List.Nodup.mem_erase_iff (hnd.erase s1)).mp hmem
      exact h1.1 rfl

/-! ### Claim C5: the tenant-wide force-disconnect loop -/

theorem hd_force_count (st : St) (sid x : Nat) :
    countEv (isForceEv x) (handleDisconnect st sid).2 = 0 := by
  rw [hd_events, countEv_append]
  repeat' split
  all_goals rfl

theorem fst_ite_pair {c : Prop} [inst : Decidable c] (a : St) (x y : List Ev) :
    (if c then (a, x) else (a, y)).1 = a := by split <;> rfl

theorem offlineBookkeeping_socketUserMap (st : St) (u c : Nat) :
    (offlineBookkeeping st u c).1.socketUserMap = st.socketUserMap := by
  unfold offlineBookkeeping markUserOffline
  dsimp only
  split <;> rfl

theorem offlineBookkeeping_liveSockets (st : St) (u c : Nat) :
    (offlineBookkeeping st u c).1.liveSockets = st.liveSockets := by
  unfold offlineBookkeeping markUserOffline
  dsimp only
  split <;> rfl

theorem offlineBookkeeping_users (st : St) (u c : Nat) :
    (offlineBookkeeping st u c).1.users = st.users := by
  unfold offlineBookkeeping markUserOffline
  dsimp only
  split <;> rfl

theorem countEv_offlineBookkeeping (p : Ev → Bool) (st : St) (u c : Nat)
    (hp : p (Ev.statusChanged u c false) = false) :
    countEv p (offlineBookkeeping st u c).2 = 0 := by
  unfold offlineBookkeeping markUserOffline
  dsimp only
  split
  · simp [countEv, hp]
  · rfl

theorem forceAllLoop_live_mono (companyId : Nat) (excl : Option Nat) :
    ∀ (socks : List Nat) (st : St) (processed : List Nat) (x : Nat),
    x ∈ (forceAllLoop companyId excl st processed socks).1.liveSockets →
    x ∈ st.liveSockets := by
  intro socks
  induction socks with
  | nil => exact fun st processed x h => h
  | cons sid rest ih =>
    intro st processed x h
    rw [forceAllLoop] at h
    cases hm : st.socketUserMap sid with
    | none =>
      rw [hm] at h
      exact ih st processed x h
    | some v =>
      rw [hm] at h
      dsimp only at h
      by_cases hex : (some v == excl) = true
      · simp only [hex, if_true] at h
        exact ih st processed x h
      · simp only [hex, Bool.false_eq_true, if_false] at h
        by_cases hpr : (processed.contains v) = true
        · simp only [hpr, if_true] at h
          try dsimp only at h
          have h2 := ih (handleDisconnect st sid).1 processed x h
          rw [hd_liveSockets] at h2
          exact List.mem_of_mem_erase h2
        · simp only [hpr, Bool.false_eq_true, if_false] at h
          try dsimp only at h
          have h2 := ih _ (processed ++ [v]) x h
          rw [offlineBookkeeping_liveSockets, hd_liveSockets] at h2
          exact List.mem_of_mem_erase h2

theorem forceAllLoop_force_count_notin (companyId : Nat) (excl : Option Nat) :
    ∀ (socks : List Nat) (st : St) (processed : List Nat) (x : Nat), x ∉ socks →
    countEv (isForceEv x) (forceAllLoop companyId excl st processed socks).2.1 = 0 := by
  intro socks
  induction socks with
  | nil => intro st processed x h; rfl
  | cons sid rest ih =>
    intro st processed x h
    have hxs : x ≠ sid := fun hh => h (hh ▸ List.mem_cons_self sid rest)
    have hxr : x ∉ rest := fun hh => h (List.mem_cons_of_mem sid hh)
    have hfa : isForceEv x (Ev.forceDisconnect sid revokeAllReason) = false := by
      simp [isForceEv]
      intro hcontra
      exact absurd hcontra.symm hxs
    rw [forceAllLoop]
    cases hm : st.socketUserMap sid with
    | none => exact ih st processed x hxr
    | some v =>
      dsimp only
      by_cases hex : (some v == excl) = true
      · simp only [hex, if_true]
        exact ih st processed x hxr
      · simp only [hex, Bool.false_eq_true, if_false]
        by_cases hpr : (processed.contains v) = true
        · simp only [hpr, if_true]
          try dsimp only
          rw [countEv_append, countEv_cons, hfa, hd_force_count, ih _ processed x hxr]
          simp
        · simp only [hpr, Bool.false_eq_true, if_false]
          try dsimp only
          rw [countEv_append, countEv_append, countEv_cons, hfa, hd_force_count,
            ih _ (processed ++ [v]) x hxr,
            countEv_offlineBookkeeping (isForceEv x) _ v companyId rfl]
          simp

theorem forceAllLoop_keep_notin (companyId : Nat) (excl : Option Nat) :
    ∀ (socks : List Nat) (st : St) (processed : List Nat) (x : Nat),
    x ∉ socks → x ∈ st.liveSockets →
    x ∈ (forceAllLoop companyId excl st processed socks).1.liveSockets := by
  intro socks
  induction socks with
  | nil => exact fun st processed x _ hx => hx
  | cons sid rest ih =>
    intro st processed x h hx
    have hxs : x ≠ sid := fun hh => h (hh ▸ List.mem_cons_self sid rest)
    have hxr : x ∉ rest := fun hh => h (List.mem_cons_of_mem sid hh)
    rw [forceAllLoop]
    cases hm : st.socketUserMap sid with
    | none => exact ih st processed x hxr hx
    | some v =>
      dsimp only
      by_cases hex : (some v == excl) = true
      · simp only [hex, if_true]
        exact ih st processed x hxr hx
      · simp only [hex, Bool.false_eq_true, if_false]
        have hx2 : x ∈ (handleDisconnect st sid).1.liveSockets := by
          rw [hd_liveSockets]
          exact (List.mem_erase_of_ne hxs).mpr hx
        by_cases hpr : (processed.contains v) = true
        · simp only [hpr, if_true]
          try dsimp only
          exact ih _ processed x hxr hx2
        · simp only [hpr, Bool.false_eq_true, if_false]
          try dsimp only
          refine ih _ (processed ++ [v]) x hxr ?_
          rw [offlineBookkeeping_liveSockets]
          exact hx2

theorem forceAllLoop_skips (companyId : Nat) (excl : Option Nat) :
    ∀ (socks : List Nat) (st : St) (processed : List Nat),
    socks.Nodup →
    ∀ x ∈ socks, (st.socketUserMap x = none ∨ st.socketUserMap x = excl) →
      countEv (isForceEv x) (forceAllLoop companyId excl st processed socks).2.1 = 0 ∧
      (x ∈ st.liveSockets →
        x ∈ (forceAllLoop companyId excl st processed socks).1.liveSockets) := by
  intro socks
  induction socks with
  | nil =>
    intro st processed _ x hx
    cases hx
  | cons sid rest ih =>
    intro st processed hnd x hx hmx
    have hndr := List.nodup_cons.mp hnd
    rcases List.mem_cons.mp hx with heq | hxr
    · subst heq
      rw [forceAllLoop]
      cases hm : st.socketUserMap x with
      | none =>
        exact ⟨forceAllLoop_force_count_notin companyId excl rest st processed x hndr.1,
          fun hl => forceAllLoop_keep_notin companyId excl rest st processed x hndr.1 hl⟩
      | some v =>
        dsimp only
        have hexcl : st.socketUserMap x = excl := by
          rcases hmx with hnone | hx2
          · rw [hnone] at hm
            exact Option.noConfusion hm
          · exact hx2
        have hbeq : (some v == excl) = true := by
          rw [hm] at hexcl
          rw [← hexcl]
          simp
        simp only [hbeq, if_true]
        exact ⟨forceAllLoop_force_count_notin companyId excl rest st processed x hndr.1,
          fun hl => forceAllLoop_keep_notin companyId excl rest st processed x hndr.1 hl⟩
    · have hxs : x ≠ sid := by
        intro hh
        subst hh
        exact hndr.1 hxr
      rw [forceAllLoop]
      cases hm : st.socketUserMap sid with
      | none => exact ih st processed hndr.2 x hxr hmx
      | some v =>
        dsimp only
        by_cases hex : (some v == excl) = true
        · simp only [hex, if_true]
          exact ih st processed hndr.2 x hxr hmx
        · simp only [hex, Bool.false_eq_true, if_false]
          have hfa : isForceEv x (Ev.forceDisconnect sid revokeAllReason) = false := by
            simp [isForceEv]
            intro hcontra
            exact absurd hcontra.symm hxs
          have hmap : (handleDisconnect st sid).1.socketUserMap x = st.socketUserMap x := by
            rw [hd_socketUserMap, Function.update_noteq hxs]
          by_cases hpr : (processed.contains v) = true
          · simp only [hpr, if_true]
            try dsimp only
            have hres := ih (handleDisconnect st sid).1 processed hndr.2 x hxr
              (by rw [hmap]; exact hmx)
            constructor
            · rw [countEv_append, countEv_cons, hfa, hd_force_count, hres.1]
              simp
            · intro hl
              refine hres.2 ?_
              rw [hd_liveSockets]
              exact (List.mem_erase_of_ne hxs).mpr hl
          · simp only [hpr, Bool.false_eq_true, if_false]
            try dsimp only
            have hres := ih ((offlineBookkeeping (handleDisconnect st sid).1 v companyId).1)
              (processed ++ [v]) hndr.2 x hxr
              (by rw [offlineBookkeeping_socketUserMap, hmap]; exact hmx)
            constructor
            · rw [countEv_append, countEv_append, countEv_cons, hfa, hd_force_count,
                countEv_offlineBookkeeping (isForceEv x) _ v companyId rfl, hres.1]
              simp
            · intro hl
              refine hres.2 ?_
              rw [offlineBookkeeping_liveSockets, hd_liveSockets]
              exact (List.mem_erase_of_ne hxs).mpr hl

theorem forceAllLoop_disconnects (companyId : Nat) (excl : Option Nat) :
    ∀ (socks : List Nat) (st : St) (processed : List Nat),
    socks.Nodup → st.liveSockets.Nodup →
    ∀ x ∈ socks, ∀ v, st.socketUserMap x = some v → some v ≠ excl →
      countEv (isForceEv x) (forceAllLoop companyId excl st processed socks).2.1 = 1 ∧
      x ∉ (forceAllLoop companyId excl st processed socks).1.liveSockets := by
  intro socks
  induction socks with
  | nil =>
    intro st processed _ _ x hx
    cases hx
  | cons sid rest ih =>
    intro st processed hnd hlive x hx v hmv hvex
    have hndr := List.nodup_cons.mp hnd
    rcases List.mem_cons.mp hx with heq | hxr
    · subst heq
      rw [forceAllLoop, hmv]
      dsimp only
      have hbeq : (some v == excl) = false := beq_eq_false_iff_ne.mpr hvex
      simp only [hbeq, Bool.false_eq_true, if_false]
      have hfself : isForceEv x (Ev.forceDisconnect x revokeAllReason) = true := by
        simp [isForceEv]
      have hgone : x ∉ (handleDisconnect st x).1.liveSockets := by
        rw [hd_liveSockets]
        intro hcontra
        exact ((List.Nodup.mem_erase_iff hlive).mp hcontra).1 rfl
      by_cases hpr : (processed.contains v) = true
      · simp only [hpr, if_true]
        try dsimp only
        constructor
        · rw [countEv_append, countEv_cons, hfself, hd_force_count,
            forceAllLoop_force_count_notin companyId excl rest _ processed x hndr.1]
          rfl
        · intro hcontra
          exact hgone (forceAllLoop_live_mono companyId excl rest _ processed x hcontra)
      · simp only [hpr, Bool.false_eq_true, if_false]
        try dsimp only
        constructor
        · rw [countEv_append, countEv_append, countEv_cons, hfself, hd_force_count,
            countEv_offlineBookkeeping (isForceEv x) _ v companyId rfl,
            forceAllLoop_force_count_notin companyId excl rest _ (processed ++ [v]) x hndr.1]
          rfl
        · intro hcontra
          have h2 := forceAllLoop_live_mono companyId excl rest _ (processed ++ [v]) x hcontra
          rw [offlineBookkeeping_liveSockets] at h2
          exact hgone h2
    · have hxs : x ≠ sid := by
        intro hh
        subst hh
        exact hndr.1 hxr
      rw [forceAllLoop]
      cases hm : st.socketUserMap sid with
      | none => exact ih st processed hndr.2 hlive x hxr v hmv hvex
      | some w =>
        dsimp only
        by_cases hex : (some w == excl) = true
        · simp only [hex, if_true]
          exact ih st processed hndr.2 hlive x hxr v hmv hvex
        · simp only [hex, Bool.false_eq_true, if_false]
          have hfa : isForceEv x (Ev.forceDisconnect sid revokeAllReason) = false := by
            simp [isForceEv]
            intro hcontra
            exact absurd hcontra.symm hxs
          have hmap : (handleDisconnect st sid).1.socketUserMap x = st.socketUserMap x := by
            rw [hd_socketUserMap, Function.update_noteq hxs]
          have hlive2 : (handleDisconnect st sid).1.liveSockets.Nodup := by
            rw [hd_liveSockets]
            exact hlive.erase sid
          by_cases hpr : (processed.contains w) = true
          · simp only [hpr, if_true]
            try dsimp only
            have hres := ih (handleDisconnect st sid).1 processed hndr.2 hlive2 x hxr v
              (by rw [hmap]; exact hmv) hvex
            constructor
            · rw [countEv_append, countEv_cons, hfa, hd_force_count, hres.1]
              rfl
            · exact hres.2
          · simp only [hpr, Bool.false_eq_true, if_false]
            try dsimp only
            have hres := ih ((offlineBookkeeping (handleDisconnect st sid).1 w companyId).1)
              (processed ++ [w]) hndr.2
              (by rw [offlineBookkeeping_liveSockets]; exact hlive2) x hxr v
              (by rw [offlineBookkeeping_socketUserMap, hmap]; exact hmv) hvex
            constructor
            · rw [countEv_append, countEv_append, countEv_cons, hfa, hd_force_count,
                countEv_offlineBookkeeping (isForceEv x) _ w companyId rfl, hres.1]
              rfl
            · exact hres.2

/-- The distinct users the loop fires its once-per-user bookkeeping for:
sockets of the snapshot in order, keyed by the registry at loop entry,
skipping unknown sockets, the excluded user, and already-seen users. -/
def distinctNewUsers (m : Nat → Option Nat) (excludeUserId : Option Nat) :
    List Nat → List Nat → List Nat
  | _, [] => []
  | processed, sid :: rest =>
    match m sid with
    | none => distinctNewUsers m excludeUserId processed rest
    | some userId =>
      if some userId == excludeUserId || processed.contains userId then
        distinctNewUsers m excludeUserId processed rest
      else
        userId :: distinctNewUsers m excludeUserId (processed ++ [userId]) rest

theorem distinctNewUsers_congr (m m2 : Nat → Option Nat) (excl : Option Nat) :
    ∀ (socks : List Nat) (processed : List Nat), (∀ x ∈ socks, m x = m2 x) →
    distinctNewUsers m excl processed socks = distinctNewUsers m2 excl processed socks := by
  intro socks
  induction socks with
  | nil => intro processed h; rfl
  | cons sid rest ih =>
    intro processed h
    rw [distinctNewUsers, distinctNewUsers, h sid (List.mem_cons_self sid rest)]
    have hrest : ∀ x ∈ rest, m x = m2 x := fun x hx => h x (List.mem_cons_of_mem sid hx)
    cases m2 sid with
    | none => exact ih processed hrest
    | some v =>
      dsimp only
      split
      · exact ih processed hrest
      · rw [ih (processed ++ [v]) hrest]

theorem forceAllLoop_users_count (companyId : Nat) (excl : Option Nat) :
    ∀ (socks : List Nat) (st : St) (processed : List Nat), socks.Nodup →
    (forceAllLoop companyId excl st processed socks).2.2.1
      = (distinctNewUsers st.socketUserMap excl processed socks).length := by
  intro socks
  induction socks with
  | nil => intro st processed _; rfl
  | cons sid rest ih =>
    intro st processed hnd
    have hndr := List.nodup_cons.mp hnd
    rw [forceAllLoop, distinctNewUsers]
    cases hm : st.socketUserMap sid with
    | none => exact ih st processed hndr.2
    | some v =>
      dsimp only
      by_cases hex : (some v == excl) = true
      · simp only [hex, Bool.true_or, if_true]
        exact ih st processed hndr.2
      · simp only [hex, Bool.false_or]
        by_cases hpr : (processed.contains v) = true
        · simp only [hpr, if_true]
          try dsimp only
          rw [ih (handleDisconnect st sid).1 processed hndr.2]
          refine congrArg List.length ?_
          refine distinctNewUsers_congr _ _ excl rest processed ?_
          intro y hy
          have hys : y ≠ sid := by
            intro hh
            subst hh
            exact hndr.1 hy
          rw [hd_socketUserMap, Function.update_noteq hys]
        · simp only [hpr, Bool.false_eq_true, if_false]
          try dsimp only
          rw [ih ((offlineBookkeeping (handleDisconnect st sid).1 v companyId).1)
            (processed ++ [v]) hndr.2]
          rw [List.length_cons]
          refine congrArg Nat.succ (congrArg List.length ?_)
          refine distinctNewUsers_congr _ _ excl rest (processed ++ [v]) ?_
          intro y hy
          have hys : y ≠ sid := by
            intro hh
            subst hh
            exact hndr.1 hy
          rw [offlineBookkeeping_socketUserMap, hd_socketUserMap, Function.update_noteq hys]

/-- C5: `forceDisconnectAllCompanyUsers` over a duplicate-free socket registry:
every room socket that is unregistered or belongs to the excluded user gets no
`force-disconnect` event and stays connected; every room socket registered to
any other user is force-disconnected exactly once and leaves the live-socket
set; the returned `disconnectedUsers` counter equals the number of distinct
non-excluded users owning the room's sockets (the per-user offline bookkeeping
runs once per such user); and sockets outside the tenant room stay live. -/
theorem force_disconnect_all_company (st : St) (companyId : Nat)
    (excludeUserId : Option Nat) (hnd : st.liveSockets.Nodup) :
    (∀ sid ∈ st.liveSockets.filter (fun s => st.roomCompany s == some companyId),
      (st.socketUserMap sid = none ∨ st.socketUserMap sid = excludeUserId) →
        countEv (isForceEv sid) (forceDisconnectAllCompanyUsers st companyId excludeUserId).2.1 = 0 ∧
        sid ∈ (forceDisconnectAllCompanyUsers st companyId excludeUserId).1.liveSockets) ∧
    (∀ sid ∈ st.liveSockets.filter (fun s => st.roomCompany s == some companyId),
      ∀ v, st.socketUserMap sid = some v → some v ≠ excludeUserId →
        countEv (isForceEv sid) (forceDisconnectAllCompanyUsers st companyId excludeUserId).2.1 = 1 ∧
        sid ∉ (forceDisconnectAllCompanyUsers st companyId excludeUserId).1.liveSockets) ∧
    (forceDisconnectAllCompanyUsers st companyId excludeUserId).2.2.1
      = (distinctNewUsers st.socketUserMap excludeUserId []
          (st.liveSockets.filter (fun s => st.roomCompany s == some companyId))).length ∧
    (∀ x ∈ st.liveSockets, x ∉ st.liveSockets.filter (fun s => st.roomCompany s == some companyId) →
      x ∈ (forceDisconnectAllCompanyUsers st companyId excludeUserId).1.liveSockets) := by
  have hndf : (st.liveSockets.filter (fun s => st.roomCompany s == some companyId)).Nodup :=
    List.Nodup.filter _ hnd
  refine ⟨?_, ?_, ?_, ?_⟩
  · intro sid hsid hmap
    have h := forceAllLoop_skips companyId excludeUserId _ st [] hndf sid hsid hmap
    exact ⟨h.1, h.2 (List.mem_filter.mp hsid).1⟩
  · intro sid hsid v hv hvex
    exact forceAllLoop_disconnects companyId excludeUserId _ st [] hndf hnd sid hsid v hv hvex
  · exact forceAllLoop_users_count companyId excludeUserId _ st [] hndf
  · intro x hx hnotin
    exact forceAllLoop_keep_notin companyId excludeUserId _ st [] x hnotin hx

/-! ### Concrete witness states -/

/-- User 42 of tenant 7 holds exactly the two live sessionless sockets 11
and 12. -/
def c3St : St where
  socketCompanyMap := fun s => if s == 11 || s == 12 then some 7 else none
  socketUserMap := fun s => if s == 11 || s == 12 then some 42 else none
  userSocketsMap := fun u => if u == 42 then some [11, 12] else none
  socketSessionMap := fun _ => none
  sessionSocketsMap := fun _ => none
  liveSockets := [11, 12]
  roomCompany := fun s => if s == 11 || s == 12 then some 7 else none
  roomSuper := fun _ => false
  presence := fun c => if c == 7 then [42] else []
  users := [⟨42, 7, true, false⟩]
  sessionsDb := []
  notifications := []
  userNotifications := []
  nextNotificationId := 1

/-- C3 counterexample: on a concrete state where user 42 holds exactly the two
live sockets 11 and 12 of tenant 7, `forceDisconnectUser 42` emits two
`user-status-changed{online:false}` broadcasts for 42, not the single one the
spec promises. -/
theorem forceDisconnectUser_double_offline_counterexample :
    countEv (isOfflineEv 42) (forceDisconnectUser c3St 42).2.1 = 2 ∧
    countEv (isOfflineEv 42) (forceDisconnectUser c3St 42).2.1 ≠ 1 := by
  decide

theorem c3_force_disconnect_two_sockets_witness :
    (forceDisconnectUser c3St 42).2.1
        = [Ev.forceDisconnect 11 revokeReason, Ev.forceDisconnect 12 revokeReason,
           Ev.statusChanged 42 7 false, Ev.statusChanged 42 7 false] ∧
    (forceDisconnectUser c3St 42).2.2 = 2 ∧
    countEv (isOfflineEv 42) (forceDisconnectUser c3St 42).2.1 = 2 := by
  have h := c3_force_disconnect_two_sockets c3St 42 7 11 12 (by decide) (by decide)
    rfl rfl rfl rfl rfl rfl (by decide) (by decide) rfl (by decide)
  exact ⟨h.1, h.2.1, h.2.2.1⟩

def c5St : St where
  socketCompanyMap := fun s => if s == 31 || s == 32 || s == 33 then some 7 else none
  socketUserMap := fun s =>
    if s == 31 || s == 33 then some 50 else if s == 32 then some 51 else none
  userSocketsMap := fun u =>
    if u == 50 then some [31, 33] else if u == 51 then some [32] else none
  socketSessionMap := fun _ => none
  sessionSocketsMap := fun _ => none
  liveSockets := [31, 32, 33]
  roomCompany := fun s => if s == 31 || s == 32 || s == 33 then some 7 else none
  roomSuper := fun _ => false
  presence := fun c => if c == 7 then [50, 51] else []
  users := [⟨50, 7, true, false⟩, ⟨51, 7, true, false⟩]
  sessionsDb := []
  notifications := []
  userNotifications := []
  nextNotificationId := 1

theorem force_disconnect_all_company_witness :
    (countEv (isForceEv 31) (forceDisconnectAllCompanyUsers c5St 7 (some 51)).2.1 = 1 ∧
       31 ∉ (forceDisconnectAllCompanyUsers c5St 7 (some 51)).1.liveSockets) ∧
    (countEv (isForceEv 32) (forceDisconnectAllCompanyUsers c5St 7 (some 51)).2.1 = 0 ∧
       32 ∈ (forceDisconnectAllCompanyUsers c5St 7 (some 51)).1.liveSockets) ∧
    (forceDisconnectAllCompanyUsers c5St 7 (some 51)).2.2.1 = 1 := by
  have h := force_disconnect_all_company c5St 7 (some 51) (by decide)
  refine ⟨h.2.1 31 (by decide) 50 rfl (by decide), h.1 32 (by decide) (Or.inr rfl), ?_⟩
  rw [h.2.2.1]
  decide

def c6St : St where
  socketCompanyMap := fun s => if s == 21 || s == 22 then some 7 else none
  socketUserMap := fun s => if s == 21 || s == 22 then some 60 else none
  userSocketsMap := fun u => if u == 60 then some [21, 22] else none
  socketSessionMap := fun s => if s == 21 then some 300 else none
  sessionSocketsMap := fun s => if s == 300 then some [21] else none
  liveSockets := [21, 22]
  roomCompany := fun s => if s == 21 || s == 22 then some 7 else none
  roomSuper := fun _ => false
  presence := fun c => if c == 7 then [60] else []
  users := [⟨60, 7, true, false⟩]
  sessionsDb := []
  notifications := []
  userNotifications := []
  nextNotificationId := 1

theorem c6_session_removed_witness :
    countEv (isSessionRemovedEv 300) (handleDisconnect c6St 21).2 = 1 ∧
    countEv (isOfflineEv 60) (handleDisconnect c6St 21).2 = 0 ∧
    (handleDisconnect c6St 21).1.sessionSocketsMap 300 = none := by
  have h := c6_session_removed c6St 21 60 300 7 [21, 22] rfl rfl rfl rfl rfl
    (by decide) (by decide)
  exact ⟨h.1, h.2.2.1, h.2.2.2.1⟩

def c10Conn : Conn := ⟨5, 42, 7, none, false⟩

theorem c10_sessionless_witness :
    countEv isSessionEv (handleConnection noopSt c10Conn).2 = 0 ∧
    countEv (isOnlineEv 42) (handleConnection noopSt c10Conn).2 = 1 ∧
    countEv isSessionEv (handleDisconnect (handleConnection noopSt c10Conn).1 5).2 = 0 ∧
    countEv (isOfflineEv 42) (handleDisconnect (handleConnection noopSt c10Conn).1 5).2 = 1 := by
  have h := c10_sessionless noopSt c10Conn rfl rfl rfl rfl
  exact ⟨h.1, h.2.2.2.2.1, h.2.2.2.2.2.2.1, h.2.2.2.2.2.2.2.1⟩

end NestAuthWs
